import Mathlib

/-!
Verification of the derived-metrics and timeline-layout core of the
construction-project dashboard (src/app.py, src/gantt_chart.py).

Dates: the source passes `datetime.date` / `pandas.Timestamp` values around and
compares / subtracts them.  We embed a calendar date as a (year, month, day)
triple and give it the proleptic-Gregorian day number `dnum` (the same ordinal
Python's `date.toordinal()` uses, shifted by a constant); timestamp comparison
and `(a - b).days` in the source correspond to comparison and subtraction of
`dnum`.  Money and percentages are embedded as `ℚ` (the source uses floats;
all the arithmetic the claims touch is exact).
-/

namespace ConstructionDashboard

/-- A calendar date as a year/month/day triple (proleptic Gregorian). -/
structure CalDate where
  y : ℕ
  m : ℕ
  d : ℕ
deriving DecidableEq, Repr

/-- Gregorian leap-year test. -/
def isLeap (y : ℕ) : Bool := (y % 4 == 0 && y % 100 != 0) || (y % 400 == 0)

/-- Number of days in month `m` of year `y`. -/
def monthLength (y m : ℕ) : ℕ :=
  if m = 2 then (if isLeap y then 29 else 28)
  else if m = 4 ∨ m = 6 ∨ m = 9 ∨ m = 11 then 30
  else 31

/-- Days of year `y` that precede the first day of month `m`. -/
def daysBeforeMonth (y m : ℕ) : ℕ :=
  ((List.range (m - 1)).map (fun i => monthLength y (i + 1))).sum

/-- Days that precede January 1 of year `y` (year 1 is day 0). -/
def daysBeforeYear (y : ℕ) : ℕ :=
  365 * (y - 1) + (y - 1) / 4 + (y - 1) / 400 - (y - 1) / 100

/-- Day number of a date: comparison and subtraction of timestamps in the
source correspond to comparison and subtraction of `dnum`. -/
def dnum (t : CalDate) : ℤ :=
  ((daysBeforeYear t.y + daysBeforeMonth t.y t.m + (t.d - 1) : ℕ) : ℤ)

/-- Validity of a date triple. -/
def CalDate.Valid (t : CalDate) : Prop :=
  1 ≤ t.y ∧ 1 ≤ t.m ∧ t.m ≤ 12 ∧ 1 ≤ t.d ∧ t.d ≤ monthLength t.y t.m

instance (t : CalDate) : Decidable t.Valid := by
  unfold CalDate.Valid; infer_instance

/-- The month after a given (year, month) pair. -/
def nextYM (ym : ℕ × ℕ) : ℕ × ℕ :=
  if ym.2 = 12 then (ym.1 + 1, 1) else (ym.1, ym.2 + 1)

/-- First day of a month. -/
def monthStart (ym : ℕ × ℕ) : CalDate := ⟨ym.1, ym.2, 1⟩

/-! ## DateMath: `allocate_value` (src/app.py lines 1340-1357)

`coerce_date` maps missing / unparseable values to `None`; the rows we embed
therefore carry `Option CalDate` date fields.  `allocate_value` converts both
dates to timestamps and works with day arithmetic; `month_start`/`month_end`
are passed as timestamps, embedded here as day numbers. -/

/-- Inclusive overlap length of `[s, e]` and `[a, b]`, clamped at 0. -/
def overlapDays (s e a b : ℤ) : ℤ := max 0 (min e b - max s a + 1)

/-- Embedding of `allocate_value(value, start, end, month_start, month_end)`:
returns 0 when either date is missing, when the ranges do not intersect, or
when the total inclusive span is not positive; otherwise prorates `value` by
`overlap_days / total_days`. -/
def allocateValue (value : ℚ) (start finish : Option CalDate) (ms me : ℤ) : ℚ :=
  match start, finish with
  | some s, some e =>
    let ts := dnum s
    let te := dnum e
    if ts > me ∨ te < ms then 0
    else
      let os := max ts ms
      let oe := min te me
      if os > oe then 0
      else
        let total := te - ts + 1
        if total ≤ 0 then 0
        else value * (((oe - os + 1 : ℤ) : ℚ) / ((total : ℤ) : ℚ))
  | _, _ => 0

/-! ## Fiscal year and `pd.date_range(start, end, freq="MS")`

`get_fiscal_year_range(year)` (src/app.py lines 1102-1105) returns
`date(year, 7, 1)` (`FISCAL_START_MONTH = 7`) and that date plus one year
minus one day, i.e. June 30 of the following year.

`pd.date_range(start, end, freq="MS")` enumerates the first-of-month dates
lying in `[start, end]`; we embed it as fuelled iteration from the first
month start at or after `start`. -/

/-- `get_fiscal_year_range`: July 1 of `year` through June 30 of `year + 1`. -/
def getFiscalYearRange (year : ℕ) : CalDate × CalDate :=
  (⟨year, 7, 1⟩, ⟨year + 1, 6, 30⟩)

def dateRangeMSAux : ℕ → ℕ × ℕ → ℤ → List (ℕ × ℕ)
  | 0, _, _ => []
  | fuel + 1, ym, endDay =>
    if dnum (monthStart ym) ≤ endDay then ym :: dateRangeMSAux fuel (nextYM ym) endDay
    else []

/-- Embedding of `pd.date_range(start, end, freq="MS")`, as the (year, month)
pairs of the month starts in `[start, end]`.  Each generated month start
advances by at least 28 days, so the fuel suffices. -/
def dateRangeMS (startDate endDate : CalDate) : List (ℕ × ℕ) :=
  let ym0 := if startDate.d = 1 then (startDate.y, startDate.m)
             else nextYM (startDate.y, startDate.m)
  dateRangeMSAux ((dnum endDate - dnum (monthStart ym0)).toNat + 1) ym0 (dnum endDate)

/-! ## MonthlyAggregator: `compute_monthly_aggregation` (src/app.py 2071-2141)

A project row carries the columns the core computations read.  Missing
numeric cells are default-filled with 0 by the source (`numeric_defaults`),
missing dates are `None`; the structure's defaults mirror that. -/

structure ProjectRow where
  orderAmount : ℚ := 0                  -- 受注金額
  plannedCost : ℚ := 0                  -- 予定原価
  orderPlanned : ℚ := 0                 -- 受注予定額
  budgetCost : ℚ := 0                   -- 予算原価
  progressPct : ℚ := 0                  -- 進捗率
  actualCost : ℚ := 0                   -- 実績原価
  headcount : ℚ := 0                    -- 月平均必要人数
  plannedStart : Option CalDate := none -- 着工日
  plannedEnd : Option CalDate := none   -- 竣工日
  actualStart : Option CalDate := none  -- 実際着工日
  actualEnd : Option CalDate := none    -- 実際竣工日
  collectStart : Option CalDate := none -- 回収開始日
  collectEnd : Option CalDate := none   -- 回収終了日
  payStart : Option CalDate := none     -- 支払開始日
  payEnd : Option CalDate := none       -- 支払終了日
  status : String := ""                 -- ステータス
  valueChain : String := ""             -- バリューチェーン工程
  manualRisk : String := ""             -- リスク度合い
  riskNote : String := ""               -- リスクメモ
deriving DecidableEq, Repr

/-- One fiscal-month aggregate row (`年月` is the month start). -/
structure MonthlyBucket where
  month : ℕ × ℕ          -- 年月 (the first-of-month date)
  revenue : ℚ            -- 受注金額
  cost : ℚ               -- 予定原価
  gross : ℚ              -- 粗利
  grossMarginPct : ℚ     -- 粗利率
  manpower : ℚ           -- 延べ人数
  cashIn : ℚ             -- キャッシュイン
  cashOut : ℚ            -- キャッシュアウト
  cashFlow : ℚ           -- キャッシュフロー
  cumCashFlow : ℚ        -- 累計キャッシュフロー
deriving DecidableEq, Repr

/-- Python `x or y` on optional dates: a present date is truthy, `None`/`NaT`
is falsy, so `row.get("回収開始日") or row.get("着工日")` is `Option.orElse`. -/
def orDate (a b : Option CalDate) : Option CalDate := a.orElse (fun _ => b)

/-- Loop body of `compute_monthly_aggregation`: per-month sums over all rows,
`cashFlow = cashIn - cashOut`, and the running cumulative cash flow
(`cumsum` in the source). -/
def computeMonthlyAggregationAux (rows : List ProjectRow) :
    ℚ → List (ℕ × ℕ) → List MonthlyBucket
  | _, [] => []
  | acc, ym :: rest =>
    let ms := dnum (monthStart ym)
    let me := dnum (monthStart (nextYM ym)) - 1
    let revenue := (rows.map (fun r =>
      allocateValue r.orderAmount r.plannedStart r.plannedEnd ms me)).sum
    let cost := (rows.map (fun r =>
      allocateValue r.plannedCost r.plannedStart r.plannedEnd ms me)).sum
    let manpower := (rows.map (fun r =>
      allocateValue r.headcount r.plannedStart r.plannedEnd ms me)).sum
    let cashIn := (rows.map (fun r =>
      allocateValue r.orderAmount (orDate r.collectStart r.plannedStart)
        (orDate r.collectEnd r.plannedEnd) ms me)).sum
    let cashOut := (rows.map (fun r =>
      allocateValue r.plannedCost (orDate r.payStart r.plannedStart)
        (orDate r.payEnd r.plannedEnd) ms me)).sum
    let gross := revenue - cost
    let grossMargin := if revenue = 0 then 0 else gross / revenue * 100
    let cf := cashIn - cashOut
    ⟨ym, revenue, cost, gross, grossMargin, manpower, cashIn, cashOut, cf, acc + cf⟩ ::
      computeMonthlyAggregationAux rows (acc + cf) rest

/-- Embedding of `compute_monthly_aggregation(df, fiscal_range)`: one bucket
per month start of the fiscal range; with an empty table all buckets are
zero-filled but the full month sequence is still produced. -/
def computeMonthlyAggregation (rows : List ProjectRow)
    (fiscalRange : CalDate × CalDate) : List MonthlyBucket :=
  let months := dateRangeMS fiscalRange.1 fiscalRange.2
  if rows = [] then
    months.map (fun ym => ⟨ym, 0, 0, 0, 0, 0, 0, 0, 0, 0⟩)
  else
    computeMonthlyAggregationAux rows 0 months

/-- The (month_start, month_end) windows `compute_monthly_aggregation` passes
to `allocate_value` for the 12 months of a fiscal year. -/
def fiscalMonthWindows (year : ℕ) : List (ℤ × ℤ) :=
  (dateRangeMS (getFiscalYearRange year).1 (getFiscalYearRange year).2).map
    (fun ym => (dnum (monthStart ym), dnum (monthStart (nextYM ym)) - 1))

/-! ## RiskEngine: `determine_risk_level` (src/app.py 1262-1290) and
`calculate_expected_progress` (src/app.py 1248-1259)

`determine_risk_level` reads the enriched columns 予算超過, 進捗差異,
遅延日数, リスク度合い, リスクメモ; we package those as `RiskSignals` and
embed the cascading mutable updates as a chain of rule functions on an
accumulator `(level, reasons)`. -/

/-- Python's `str.strip()`: drop leading and trailing whitespace (the source
only ever strips ASCII-whitespace-or-empty risk labels and value-chain
cells). -/
def pythonStrip (s : String) : String :=
  ⟨((s.toList.dropWhile Char.isWhitespace).reverse.dropWhile Char.isWhitespace).reverse⟩

structure RiskSignals where
  isOverBudget : Bool      -- 予算超過
  progressVariance : ℚ     -- 進捗差異
  delayDays : ℤ            -- 遅延日数
  manualRisk : String      -- リスク度合い
  riskNote : String        -- リスクメモ
deriving DecidableEq, Repr

structure RiskState where
  level : String
  reasons : List String
deriving DecidableEq, Repr

/-- The `risk_order` mapping (低 0, 中 1, 高 2); values outside the table are
only ever looked up guarded by a membership test in the source. -/
def riskOrder (s : String) : ℕ :=
  if s = "低" then 0 else if s = "中" then 1 else if s = "高" then 2 else 0

/-- Keys of `risk_order`. -/
def riskKeys : List String := ["低", "中", "高"]

/-- Rule 1: budget overrun forces 高. -/
def riskRule1 (sig : RiskSignals) (st : RiskState) : RiskState :=
  if sig.isOverBudget then ⟨"高", st.reasons ++ ["予算超過"]⟩ else st

/-- Rule 2: progress variance below -30 forces 高, below -10 raises to 中
only when the level is still below 中. -/
def riskRule2 (sig : RiskSignals) (st : RiskState) : RiskState :=
  if sig.progressVariance < -30 then ⟨"高", st.reasons ++ ["進捗大幅遅れ"]⟩
  else if sig.progressVariance < -10 ∧ riskOrder st.level < riskOrder "中" then
    ⟨"中", st.reasons ++ ["進捗遅れ"]⟩
  else st

/-- Rule 3: positive delay forces 高. -/
def riskRule3 (sig : RiskSignals) (st : RiskState) : RiskState :=
  if 0 < sig.delayDays then
    let d := sig.delayDays
    ⟨"高", st.reasons ++ [s!"遅延{d}日"]⟩
  else st

/-- Rule 4: manual override raises the level when stronger, and annotates
whenever the manual value is a known level other than 低. -/
def riskRule4 (sig : RiskSignals) (st : RiskState) : RiskState :=
  let m := pythonStrip sig.manualRisk
  let st1 := if m ∈ riskKeys ∧ riskOrder st.level < riskOrder m then ⟨m, st.reasons⟩ else st
  if m ∈ riskKeys ∧ m ≠ "" ∧ m ≠ "低" then ⟨st1.level, st1.reasons ++ [s!"手動評価:{m}"]⟩
  else st1

/-- Rule 5: with no reasons so far, a non-empty risk note sets 中. -/
def riskRule5 (sig : RiskSignals) (st : RiskState) : RiskState :=
  if st.reasons = [] ∧ sig.riskNote ≠ "" then ⟨"中", st.reasons ++ [sig.riskNote]⟩ else st

def riskStage1 (sig : RiskSignals) : RiskState := riskRule1 sig ⟨"低", []⟩

def riskStage2 (sig : RiskSignals) : RiskState := riskRule2 sig (riskStage1 sig)

def riskStage3 (sig : RiskSignals) : RiskState := riskRule3 sig (riskStage2 sig)

def riskStage4 (sig : RiskSignals) : RiskState := riskRule4 sig (riskStage3 sig)

def riskStage5 (sig : RiskSignals) : RiskState := riskRule5 sig (riskStage4 sig)

/-- Embedding of `determine_risk_level`: the final level, and the comment
joined with "、" over the de-duplicated (first occurrence kept) non-empty
reasons, defaulting to "安定". -/
def determineRiskLevel (sig : RiskSignals) : String × String :=
  let st := riskStage5 sig
  let cleaned := (st.reasons.filter (fun r => r ≠ "")).eraseDups
  let comment := String.intercalate "、" cleaned
  (st.level, if comment = "" then "安定" else comment)

/-- Embedding of `calculate_expected_progress(row, today)`: start is
着工日 falling back to 実際着工日, end is 竣工日; 0 without a valid span or
before the start, 100 at/after the end, and the clamped linear
interpolation in between. -/
def calculateExpectedProgress (r : ProjectRow) (today : CalDate) : ℚ :=
  match orDate r.plannedStart r.actualStart, r.plannedEnd with
  | some s, some e =>
    if dnum e ≤ dnum s then 0
    else if dnum today ≤ dnum s then 0
    else if dnum e ≤ dnum today then 100
    else max 0 (min 100
      (((dnum today - dnum s : ℤ) : ℚ) / ((dnum e - dnum s : ℤ) : ℚ) * 100))
  | _, _ => 0

/-! ## ProjectEnricher: `enrich_projects` (src/app.py 1293-1337)

All derived columns are per-row computations; note that the source reads the
current date with `today = date.today()` *inside* `enrich_projects`
(src/app.py line 1327) rather than taking it as a parameter.  The ambient
clock value it reads is modeled here as the explicit `clock` argument. -/

structure EnrichedProject where
  base : ProjectRow
  valueChainStage : String  -- バリューチェーン工程 (after default-fill)
  grossProfit : ℚ           -- 粗利額
  costRatioPct : ℚ          -- 原価率
  orderVariance : ℚ         -- 受注差異
  budgetVariance : ℚ        -- 予算乖離額
  isOverBudget : Bool       -- 予算超過
  completedValue : ℚ        -- 完成工事高
  realizedGrossProfit : ℚ   -- 実行粗利
  expectedProgressPct : ℚ   -- 想定進捗率
  progressVariance : ℚ      -- 進捗差異
  delayDays : ℤ             -- 遅延日数
  riskLevel : String        -- リスクレベル
  riskComment : String      -- リスクコメント
deriving DecidableEq, Repr

/-- `STATUS_VALUE_CHAIN_MAP` (src/app.py 28-33). -/
def statusValueChainMap (status : String) : Option String :=
  if status = "見積" then some "原材料調達"
  else if status = "受注" then some "施工準備"
  else if status = "施工中" then some "施工"
  else if status = "完了" then some "引き渡し"
  else none

/-- One row of `enrich_projects`. -/
def enrichRow (clock : CalDate) (r : ProjectRow) : EnrichedProject :=
  let valueChain := if pythonStrip r.valueChain = ""
    then (statusValueChainMap r.status).getD "施工" else r.valueChain
  let grossProfit := r.orderAmount - r.plannedCost
  let costRatio := if r.orderAmount ≠ 0 then r.plannedCost / r.orderAmount * 100 else 0
  let orderVariance := r.orderAmount - r.orderPlanned
  let budgetVariance := r.plannedCost - r.budgetCost
  let isOver : Bool := decide (0 < budgetVariance)
  let completedValue := r.orderAmount * (r.progressPct / 100)
  let realizedGross := r.orderAmount - r.actualCost
  let expected := calculateExpectedProgress r clock
  let progressVar := r.progressPct - expected
  let delay : ℤ := match r.actualEnd, r.plannedEnd with
    | some a, some p => if 0 < dnum a - dnum p then dnum a - dnum p else 0
    | _, _ => 0
  let rc := determineRiskLevel ⟨isOver, progressVar, delay, r.manualRisk, r.riskNote⟩
  ⟨r, valueChain, grossProfit, costRatio, orderVariance, budgetVariance, isOver,
    completedValue, realizedGross, expected, progressVar, delay, rc.1, rc.2⟩

/-- Embedding of `enrich_projects`: per-row derivation over the table.  The
source obtains `today` from the system clock inside the function; `clock` is
that ambient value. -/
def enrichProjects (clock : CalDate) (rows : List ProjectRow) : List EnrichedProject :=
  rows.map (enrichRow clock)

/-- A concrete project row used to exhibit the clock dependence of
`enrich_projects`: a 11-day project in January 2025. -/
def clockProbeRow : ProjectRow :=
  { plannedStart := some ⟨2025, 1, 1⟩, plannedEnd := some ⟨2025, 1, 11⟩ }

/-! ## ColorContrast: `hex_to_rgb` and `get_contrasting_text_color`
(src/app.py 1169-1198)

The source strips the string, removes leading `#`, duplicates the characters
of a 3-digit form, and parses the three 2-character chunks with
`int(chunk, 16)` (which also tolerates a sign or whitespace around a single
digit); any failure yields `None`.  The relative luminance uses the sRGB
piecewise transform; the float power is idealized as the real power
function. -/

/-- Hexadecimal digit value. -/
def hexDigitVal (c : Char) : Option ℕ :=
  if '0' ≤ c ∧ c ≤ '9' then some (c.toNat - '0'.toNat)
  else if 'a' ≤ c ∧ c ≤ 'f' then some (c.toNat - 'a'.toNat + 10)
  else if 'A' ≤ c ∧ c ≤ 'F' then some (c.toNat - 'A'.toNat + 10)
  else none

/-- Python `int(x, 16)` on a 2-character chunk: two digits, or a sign or
whitespace next to a single digit. -/
def pythonIntHex2 (a b : Char) : Option ℤ :=
  match hexDigitVal a, hexDigitVal b with
  | some va, some vb => some (16 * va + vb)
  | _, _ =>
    if a = '+' then (hexDigitVal b).map (fun v => (v : ℤ))
    else if a = '-' then (hexDigitVal b).map (fun v => -(v : ℤ))
    else if a.isWhitespace then (hexDigitVal b).map (fun v => (v : ℤ))
    else if b.isWhitespace then (hexDigitVal a).map (fun v => (v : ℤ))
    else none

/-- Embedding of `hex_to_rgb`. -/
def hexToRgb (color : String) : Option (ℤ × ℤ × ℤ) :=
  let cleaned := (pythonStrip color).toList.dropWhile (fun c => c = '#')
  let cs := if cleaned.length = 3 then cleaned.bind (fun c => [c, c]) else cleaned
  match cs with
  | [c0, c1, c2, c3, c4, c5] =>
    match pythonIntHex2 c0 c1, pythonIntHex2 c2 c3, pythonIntHex2 c4 c5 with
    | some r, some g, some b => some (r, g, b)
    | _, _, _ => none
  | _ => none

/-- The sRGB piecewise linear-light transform of one channel. -/
noncomputable def toLinear (c : ℤ) : ℝ :=
  let ch : ℝ := (c : ℝ) / 255
  if ch ≤ 0.03928 then ch / 12.92 else ((ch + 0.055) / 1.055) ^ (2.4 : ℝ)

/-- Relative luminance with coefficients 0.2126 / 0.7152 / 0.0722. -/
noncomputable def luminance (rgb : ℤ × ℤ × ℤ) : ℝ :=
  0.2126 * toLinear rgb.1 + 0.7152 * toLinear rgb.2.1 + 0.0722 * toLinear rgb.2.2

/-- Embedding of `get_contrasting_text_color`: white below the 0.55
luminance threshold, otherwise the dark brand navy `BRAND_COLORS["navy"]`;
navy on parse failure. -/
noncomputable def getContrastingTextColor (color : String) : String :=
  match hexToRgb color with
  | none => "#0B1F3A"
  | some rgb => if luminance rgb < 0.55 then "#FFFFFF" else "#0B1F3A"

/-! ## TimelineAxisBuilder: `gen_time_marks` (src/app.py 1477-1539)

The ±3-day buffers around the data extent are computed on date triples;
`Timestamp(year, month, 1)` snaps to the month start and
`month_start + relativedelta(months=1) - 1 day` is the month end. -/

/-- Subtract three days from a valid date (`ts - pd.Timedelta(days=3)`). -/
def subDays3 (t : CalDate) : CalDate :=
  if 3 < t.d then ⟨t.y, t.m, t.d - 3⟩
  else if t.m = 1 then ⟨t.y - 1, 12, 31 - (3 - t.d)⟩
  else ⟨t.y, t.m - 1, monthLength t.y (t.m - 1) - (3 - t.d)⟩

/-- Add three days to a valid date (`ts + pd.Timedelta(days=3)`). -/
def addDays3 (t : CalDate) : CalDate :=
  if t.d + 3 ≤ monthLength t.y t.m then ⟨t.y, t.m, t.d + 3⟩
  else if t.m = 12 then ⟨t.y + 1, 1, t.d + 3 - monthLength t.y 12⟩
  else ⟨t.y, t.m + 1, t.d + 3 - monthLength t.y t.m⟩

/-- `min` of a date series against an initial timestamp, by day number. -/
def minDateBy (init : CalDate) (l : List CalDate) : CalDate :=
  l.foldl (fun a d => if dnum d < dnum a then d else a) init

/-- `max` of a date series against an initial timestamp, by day number. -/
def maxDateBy (init : CalDate) (l : List CalDate) : CalDate :=
  l.foldl (fun a d => if dnum a < dnum d then d else a) init

/-- The numbered-day minor candidates (days 6, 12, 18, 24) of one month,
clipped to the domain and to the month end, with their labels. -/
def minorDayPairs (domS domE : ℤ) (ym : ℕ × ℕ) : List (ℤ × String) :=
  ([6, 12, 18, 24] : List ℕ).filterMap (fun day =>
    let candidate := dnum (monthStart ym) + ((day : ℤ) - 1)
    let monthEnd := dnum (monthStart (nextYM ym)) - 1
    if candidate < domS ∨ domE < candidate ∨ monthEnd < candidate then none
    else some (candidate, s!"{day}日"))

/-- The month-end minor candidate of one month, generated after the
numbered days, clipped to the domain. -/
def monthEndPair (domS domE : ℤ) (ym : ℕ × ℕ) : List (ℤ × String) :=
  let monthEnd := dnum (monthStart (nextYM ym)) - 1
  if domS ≤ monthEnd ∧ monthEnd ≤ domE then [(monthEnd, "月末")] else []

/-- All minor (position, label) pairs in generation order: for each month the
numbered days first, then 月末. -/
def minorPairs (domS domE : ℤ) (months : List (ℕ × ℕ)) : List (ℤ × String) :=
  months.bind (fun ym => minorDayPairs domS domE ym ++ monthEndPair domS domE ym)

/-- Python-dict insertion: overwrite the value at an existing key in place,
else append.  Models `dedup_minor[mark] = label`. -/
def dictInsert : List (ℤ × String) → ℤ × String → List (ℤ × String)
  | [], kv => [kv]
  | q :: d, kv => if q.1 = kv.1 then (q.1, kv.2) :: d else q :: dictInsert d kv

/-- Dict lookup (keys are unique by construction). -/
def dictLookup (d : List (ℤ × String)) (k : ℤ) : Option String :=
  (d.find? (fun p => p.1 == k)).map (fun p => p.2)

/-- The label of the last generated occurrence of a position. -/
def lastLabel (pairs : List (ℤ × String)) (k : ℤ) : Option String :=
  (pairs.reverse.find? (fun p => p.1 == k)).map (fun p => p.2)

structure TimeMarks where
  majorMarks : List ℤ
  minorMarks : List ℤ
  domainStart : CalDate
  domainEnd : CalDate
  majorLabels : List String
  minorLabels : List String
deriving DecidableEq, Repr

/-- Embedding of `gen_time_marks(tasks, fallback_range)`. -/
def genTimeMarks (tasks : List (Option CalDate × Option CalDate))
    (fallback : CalDate × CalDate) : TimeMarks :=
  let startTs := minDateBy fallback.1 (tasks.filterMap (fun r => r.1))
  let endTs0 := maxDateBy fallback.2 (tasks.filterMap (fun r => r.2))
  let endTs := if dnum endTs0 < dnum startTs then startTs else endTs0
  let startBuffer := subDays3 startTs
  let endBuffer := addDays3 endTs
  let domainStart : CalDate := ⟨startBuffer.y, startBuffer.m, 1⟩
  let domainEnd : CalDate :=
    ⟨endBuffer.y, endBuffer.m, monthLength endBuffer.y endBuffer.m⟩
  let months := dateRangeMS domainStart domainEnd
  let major := months.map (fun ym => dnum (monthStart ym))
  let majorLabels := months.map (fun ym =>
    let m := ym.2
    s!"{m}月")
  let pairs := minorPairs (dnum domainStart) (dnum domainEnd) months
  let dedup := pairs.foldl dictInsert []
  let minorMarks := List.insertionSort (fun a b => a ≤ b) (dedup.map (fun p => p.1))
  let minorLabels := minorMarks.map (fun k => (dictLookup dedup k).getD "")
  ⟨major, minorMarks, domainStart, domainEnd, majorLabels, minorLabels⟩

/-! ## Gantt chart: `_build_axis_marks` and `create_project_gantt_chart`
(src/gantt_chart.py) -/

structure GanttAxisMarks where
  tickPositions : List ℤ
  tickLabels : List String
  majorMarks : List ℤ
  minorMarks : List ℤ
  domainStart : CalDate
  domainEnd : CalDate
deriving DecidableEq, Repr

/-- `series.min()` over a column with missing values: `None` models `NaT`. -/
def minDateOpt (l : List (Option CalDate)) : Option CalDate :=
  match l.filterMap id with
  | [] => none
  | v :: vs => some (minDateBy v vs)

def maxDateOpt (l : List (Option CalDate)) : Option CalDate :=
  match l.filterMap id with
  | [] => none
  | v :: vs => some (maxDateBy v vs)

/-- `month_start.strftime("%Y/%m")`. -/
def ymLabel (ym : ℕ × ℕ) : String :=
  s!"{ym.1}/" ++ (if ym.2 < 10 then "0" else "") ++ s!"{ym.2}"

/-- First-seen-order deduplication (`_deduplicate` in the source). -/
def dedupKeepFirst (l : List ℤ) : List ℤ := l.eraseDups

/-- Embedding of `_build_axis_marks(starts, ends)`: `none` models the
`ValueError` raised when a column has no valid value. -/
def buildAxisMarks (starts ends : List (Option CalDate)) : Option GanttAxisMarks :=
  match minDateOpt starts, maxDateOpt ends with
  | some sv, some ev =>
    let domainStart : CalDate := ⟨sv.y, sv.m, 1⟩
    let domainEnd : CalDate := ⟨ev.y, ev.m, monthLength ev.y ev.m⟩
    let months := dateRangeMS domainStart domainEnd
    let major := months.map (fun ym => dnum (monthStart ym))
    let majorLabels := months.map ymLabel
    let minor := months.bind (fun ym =>
      let med := dnum (monthStart (nextYM ym)) - 1
      (([6, 12, 18, 24] : List ℕ).filterMap (fun day =>
        let candidate := dnum (monthStart ym) + ((day : ℤ) - 1)
        if candidate ≤ med then some candidate else none))
      ++ (if med ∈ major then [] else [med]))
    let minorDedup := dedupKeepFirst (List.insertionSort (fun a b => a ≤ b) minor)
    let ticks := dedupKeepFirst
      (List.insertionSort (fun a b => a ≤ b) (major ++ minorDedup))
    let labelPairs := List.zip major majorLabels
    let tickLabels := ticks.map (fun p =>
      ((labelPairs.find? (fun q => q.1 == p)).map (fun q => q.2)).getD "")
    some ⟨ticks, tickLabels, major, minorDedup, domainStart, domainEnd⟩
  | _, _ => none

structure GanttInput where
  hasName : Bool                                     -- 案件名 column present
  hasStart : Bool                                    -- 開始日 column present
  hasEnd : Bool                                      -- 終了日 column present
  rows : List (String × Option CalDate × Option CalDate)
deriving DecidableEq, Repr

structure GanttBar where
  project : String
  start : CalDate
  finish : CalDate
  duration : ℤ
deriving DecidableEq, Repr

structure GanttFigure where
  axis : GanttAxisMarks
  bars : List GanttBar
  height : ℕ
deriving DecidableEq, Repr

/-- A row survives the validity filter: both dates parsed and end ≥ start. -/
def ganttRowOk (r : String × Option CalDate × Option CalDate) : Bool :=
  match r.2.1, r.2.2 with
  | some s, some e => decide (dnum s ≤ dnum e)
  | _, _ => false

/-- Embedding of `create_project_gantt_chart(df)`: `Except.error` models a
raised `ValueError`, `Except.ok` a returned figure.  A cell holds `none`
when `pd.to_datetime(..., errors="coerce")` cannot parse it. -/
def createProjectGanttChart (df : GanttInput) : Except String GanttFigure :=
  let missing := (if df.hasName then [] else ["案件名"])
    ++ (if df.hasEnd then [] else ["終了日"])
    ++ (if df.hasStart then [] else ["開始日"])
  if missing ≠ [] then
    .error ("DataFrame に必要な列がありません: " ++ String.intercalate ", " missing)
  else if (df.rows.map (fun r => r.2.1)).filterMap id = [] then
    .error "列 '開始日' の有効な日付が見つかりません。"
  else if (df.rows.map (fun r => r.2.2)).filterMap id = [] then
    .error "列 '終了日' の有効な日付が見つかりません。"
  else
    let filtered := df.rows.filter ganttRowOk
    if filtered = [] then
      .error "開始日と終了日が正しく設定された行が存在しません。"
    else
      match buildAxisMarks (filtered.map (fun r => r.2.1))
          (filtered.map (fun r => r.2.2)) with
      | none => .error "開始日または終了日に有効な値が必要です。"
      | some axis =>
        let bars := filtered.filterMap (fun r =>
          match r.2.1, r.2.2 with
          | some s, some e =>
            let duration := dnum e - dnum s + 1
            if 0 < duration then some (⟨r.1, s, e, duration⟩ : GanttBar) else none
          | _, _ => none)
        let cats := (bars.map (fun b => b.project)).eraseDups
        .ok ⟨axis, bars, max 360 (40 * cats.length + 120)⟩

lemma monthLength_pos (y m : ℕ) : 1 ≤ monthLength y m := by
  unfold monthLength
  split_ifs <;> norm_num

lemma daysBeforeYear_succ (y : ℕ) (hy : 1 ≤ y) :
    daysBeforeYear (y + 1) = daysBeforeYear y + 365 + (if isLeap y then 1 else 0) := by
  obtain ⟨z, rfl⟩ : ∃ z, y = z + 1 := ⟨y - 1, by omega⟩
  cases hl : isLeap (z + 1)
  · have hl' : ¬ (isLeap (z + 1) = true) := by simp [hl]
    simp only [isLeap, Bool.or_eq_true, Bool.and_eq_true,
      beq_iff_eq, bne_iff_ne, ne_eq] at hl'
    push_neg at hl'
    simp only [daysBeforeYear, hl]
    norm_num
    rcases hl' with ⟨h1, h2⟩
    by_cases h4 : (z + 1) % 4 = 0
    · have h100 : (z + 1) % 100 = 0 := h1 h4
      omega
    · have h100' : (z + 1) % 100 ≠ 0 := fun hc => h4 (by omega)
      have h400' : (z + 1) % 400 ≠ 0 := fun hc => h4 (by omega)
      have e4 : (z + 1) / 4 = z / 4 := by omega
      have e100 : (z + 1) / 100 = z / 100 := by omega
      have e400 : (z + 1) / 400 = z / 400 := by omega
      rw [e4, e100, e400]
      have hle : z / 100 ≤ 365 * z + z / 4 + z / 400 := by omega
      rw [← Nat.sub_add_comm hle]
      congr 1
      ring
  · have hl2 := hl
    simp only [isLeap, Bool.or_eq_true, Bool.and_eq_true,
      beq_iff_eq, bne_iff_ne, ne_eq] at hl2
    simp only [daysBeforeYear, hl]
    norm_num
    rcases hl2 with ⟨h1, h2⟩ | h1 <;> omega

lemma daysBeforeMonth_succ (y m : ℕ) (hm : 1 ≤ m) :
    daysBeforeMonth y (m + 1) = daysBeforeMonth y m + monthLength y m := by
  obtain ⟨k, rfl⟩ : ∃ k, m = k + 1 := ⟨m - 1, by omega⟩
  unfold daysBeforeMonth
  simp [List.range_succ]

lemma daysBeforeMonth_year_total (y : ℕ) :
    daysBeforeMonth y 13 = 365 + (if isLeap y then 1 else 0) := by
  cases hl : isLeap y <;>
    simp [daysBeforeMonth, List.range_succ, monthLength, hl]

/-- Day-number step from the first of one month to the first of the next. -/
lemma dnum_monthStart_next (ym : ℕ × ℕ) (hy : 1 ≤ ym.1) (hm1 : 1 ≤ ym.2)
    (hm2 : ym.2 ≤ 12) :
    dnum (monthStart (nextYM ym)) = dnum (monthStart ym) + monthLength ym.1 ym.2 := by
  obtain ⟨y, m⟩ := ym
  simp only at hy hm1 hm2
  by_cases h12 : m = 12
  · subst h12
    have h1 : daysBeforeYear (y + 1) = daysBeforeYear y + 365 + (if isLeap y then 1 else 0) :=
      daysBeforeYear_succ y hy
    have h2 : daysBeforeMonth y 13 = 365 + (if isLeap y then 1 else 0) :=
      daysBeforeMonth_year_total y
    have h3 : daysBeforeMonth y 13 = daysBeforeMonth y 12 + monthLength y 12 :=
      daysBeforeMonth_succ y 12 (by norm_num)
    have h4 : monthLength y 12 = 31 := by norm_num [monthLength]
    have h5 : daysBeforeMonth (y + 1) 1 = 0 := by simp [daysBeforeMonth]
    have hn : nextYM (y, 12) = (y + 1, 1) := by norm_num [nextYM]
    rw [hn]
    simp only [monthStart, dnum]
    omega
  · have hnext : nextYM (y, m) = (y, m + 1) := by simp [nextYM, h12]
    rw [hnext]
    have h3 : daysBeforeMonth y (m + 1) = daysBeforeMonth y m + monthLength y m :=
      daysBeforeMonth_succ y m hm1
    simp only [monthStart, dnum]
    omega

/-- Within a month, the day number is the month start plus the day offset. -/
lemma dnum_day (y m d : ℕ) :
    dnum ⟨y, m, d⟩ = dnum ⟨y, m, 1⟩ + (d - 1 : ℕ) := by
  simp only [dnum]
  omega

lemma dnum_le_dnum_of_day_le (y m d d' : ℕ) (h : d ≤ d') :
    dnum ⟨y, m, d⟩ ≤ dnum ⟨y, m, d'⟩ := by
  simp only [dnum]; omega

/-- For present, well-ordered dates, `allocate_value` is exactly proportional
allocation by clamped overlap length. -/
lemma allocateValue_eq_overlap (value : ℚ) (s e : CalDate) (hse : dnum s ≤ dnum e)
    (ms me : ℤ) :
    allocateValue value (some s) (some e) ms me
      = value * (((overlapDays (dnum s) (dnum e) ms me : ℤ) : ℚ)
          / (((dnum e - dnum s + 1 : ℤ) : ℚ))) := by
  simp only [allocateValue, overlapDays]
  split_ifs with h1 h2 h3
  · have hz : max 0 (min (dnum e) me - max (dnum s) ms + 1) = 0 := by omega
    rw [hz]; simp
  · have hz : max 0 (min (dnum e) me - max (dnum s) ms + 1) = 0 := by omega
    rw [hz]; simp
  · omega
  · have hz : max 0 (min (dnum e) me - max (dnum s) ms + 1)
        = min (dnum e) me - max (dnum s) ms + 1 := by omega
    rw [hz]

/-- Splitting clamped overlap at an interior boundary. -/
lemma overlapDays_split (s e a b c : ℤ) (hab : a ≤ b + 1) (hbc : b ≤ c) :
    overlapDays s e a c = overlapDays s e a b + overlapDays s e (b + 1) c := by
  unfold overlapDays
  omega

lemma dateRangeMSAux_cons (fuel : ℕ) (ym : ℕ × ℕ) (endDay : ℤ)
    (hf : 1 ≤ fuel) (h : dnum (monthStart ym) ≤ endDay) :
    dateRangeMSAux fuel ym endDay = ym :: dateRangeMSAux (fuel - 1) (nextYM ym) endDay := by
  obtain ⟨f, rfl⟩ : ∃ f, fuel = f + 1 := ⟨fuel - 1, by omega⟩
  simp [dateRangeMSAux, h]

lemma dateRangeMSAux_nil (fuel : ℕ) (ym : ℕ × ℕ) (endDay : ℤ)
    (h : endDay < dnum (monthStart ym)) :
    dateRangeMSAux fuel ym endDay = [] := by
  cases fuel with
  | zero => rfl
  | succ f => simp [dateRangeMSAux]; omega

lemma dateRangeMSAux_succ (f : ℕ) (ym : ℕ × ℕ) (endDay : ℤ)
    (h : dnum (monthStart ym) ≤ endDay) :
    dateRangeMSAux (f + 1) ym endDay = ym :: dateRangeMSAux f (nextYM ym) endDay := by
  simp [dateRangeMSAux, h]

/-- The fiscal year starting July 1 of year `y` consists of exactly the 12
calendar months July `y` .. June `y + 1`. -/
lemma fiscal_months (y : ℕ) (hy : 1 ≤ y) :
    dateRangeMS ⟨y, 7, 1⟩ ⟨y + 1, 6, 30⟩ =
      [(y, 7), (y, 8), (y, 9), (y, 10), (y, 11), (y, 12),
       (y + 1, 1), (y + 1, 2), (y + 1, 3), (y + 1, 4), (y + 1, 5), (y + 1, 6)] := by
  have hy1 : 1 ≤ y + 1 := by omega
  have hL1 : 28 ≤ monthLength (y + 1) 2 := by
    simp only [monthLength]
    norm_num
    split_ifs <;> norm_num
  have hL2 : monthLength (y + 1) 2 ≤ 29 := by
    simp only [monthLength]
    norm_num
    split_ifs <;> norm_num
  have e8 : dnum (monthStart (y, 8)) = dnum (monthStart (y, 7)) + 31 := by
    have h := dnum_monthStart_next (y, 7) hy (by norm_num) (by norm_num)
    norm_num [nextYM, monthLength] at h
    exact h
  have e9 : dnum (monthStart (y, 9)) = dnum (monthStart (y, 8)) + 31 := by
    have h := dnum_monthStart_next (y, 8) hy (by norm_num) (by norm_num)
    norm_num [nextYM, monthLength] at h
    exact h
  have e10 : dnum (monthStart (y, 10)) = dnum (monthStart (y, 9)) + 30 := by
    have h := dnum_monthStart_next (y, 9) hy (by norm_num) (by norm_num)
    norm_num [nextYM, monthLength] at h
    exact h
  have e11 : dnum (monthStart (y, 11)) = dnum (monthStart (y, 10)) + 31 := by
    have h := dnum_monthStart_next (y, 10) hy (by norm_num) (by norm_num)
    norm_num [nextYM, monthLength] at h
    exact h
  have e12 : dnum (monthStart (y, 12)) = dnum (monthStart (y, 11)) + 30 := by
    have h := dnum_monthStart_next (y, 11) hy (by norm_num) (by norm_num)
    norm_num [nextYM, monthLength] at h
    exact h
  have f1 : dnum (monthStart (y + 1, 1)) = dnum (monthStart (y, 12)) + 31 := by
    have h := dnum_monthStart_next (y, 12) hy (by norm_num) (by norm_num)
    norm_num [nextYM, monthLength] at h
    exact h
  have f2 : dnum (monthStart (y + 1, 2)) = dnum (monthStart (y + 1, 1)) + 31 := by
    have h := dnum_monthStart_next (y + 1, 1) hy1 (by norm_num) (by norm_num)
    norm_num [nextYM, monthLength] at h
    exact h
  have f3 : dnum (monthStart (y + 1, 3))
      = dnum (monthStart (y + 1, 2)) + (monthLength (y + 1) 2 : ℤ) := by
    have h := dnum_monthStart_next (y + 1, 2) hy1 (by norm_num) (by norm_num)
    norm_num [nextYM] at h
    exact h
  have f4 : dnum (monthStart (y + 1, 4)) = dnum (monthStart (y + 1, 3)) + 31 := by
    have h := dnum_monthStart_next (y + 1, 3) hy1 (by norm_num) (by norm_num)
    norm_num [nextYM, monthLength] at h
    exact h
  have f5 : dnum (monthStart (y + 1, 5)) = dnum (monthStart (y + 1, 4)) + 30 := by
    have h := dnum_monthStart_next (y + 1, 4) hy1 (by norm_num) (by norm_num)
    norm_num [nextYM, monthLength] at h
    exact h
  have f6 : dnum (monthStart (y + 1, 6)) = dnum (monthStart (y + 1, 5)) + 31 := by
    have h := dnum_monthStart_next (y + 1, 5) hy1 (by norm_num) (by norm_num)
    norm_num [nextYM, monthLength] at h
    exact h
  have f7 : dnum (monthStart (y + 1, 7)) = dnum (monthStart (y + 1, 6)) + 30 := by
    have h := dnum_monthStart_next (y + 1, 6) hy1 (by norm_num) (by norm_num)
    norm_num [nextYM, monthLength] at h
    exact h
  have hEnd : dnum ⟨y + 1, 6, 30⟩ = dnum (monthStart (y + 1, 6)) + 29 := by
    rw [show monthStart (y + 1, 6) = (⟨y + 1, 6, 1⟩ : CalDate) from rfl]
    have h30 := dnum_day (y + 1) 6 30
    norm_num at h30
    exact h30
  have hred : dateRangeMS ⟨y, 7, 1⟩ ⟨y + 1, 6, 30⟩
      = dateRangeMSAux ((dnum ⟨y + 1, 6, 30⟩ - dnum (monthStart (y, 7))).toNat + 1)
          (y, 7) (dnum ⟨y + 1, 6, 30⟩) := rfl
  rw [hred]
  set E := dnum (⟨y + 1, 6, 30⟩ : CalDate) with hE
  have hFeq : (E - dnum (monthStart (y, 7))).toNat + 1
      = ((E - dnum (monthStart (y, 7))).toNat - 12) + 13 := by omega
  rw [hFeq]
  set f := (E - dnum (monthStart (y, 7))).toNat - 12 with hf
  have t1 : dateRangeMSAux (f + 13) (y, 7) E
      = (y, 7) :: dateRangeMSAux (f + 12) (y, 8) E := by
    rw [show f + 13 = (f + 12) + 1 from rfl]
    rw [dateRangeMSAux_succ (f + 12) (y, 7) E (by omega)]
    norm_num [nextYM]
  have t2 : dateRangeMSAux (f + 12) (y, 8) E
      = (y, 8) :: dateRangeMSAux (f + 11) (y, 9) E := by
    rw [show f + 12 = (f + 11) + 1 from rfl]
    rw [dateRangeMSAux_succ (f + 11) (y, 8) E (by omega)]
    norm_num [nextYM]
  have t3 : dateRangeMSAux (f + 11) (y, 9) E
      = (y, 9) :: dateRangeMSAux (f + 10) (y, 10) E := by
    rw [show f + 11 = (f + 10) + 1 from rfl]
    rw [dateRangeMSAux_succ (f + 10) (y, 9) E (by omega)]
    norm_num [nextYM]
  have t4 : dateRangeMSAux (f + 10) (y, 10) E
      = (y, 10) :: dateRangeMSAux (f + 9) (y, 11) E := by
    rw [show f + 10 = (f + 9) + 1 from rfl]
    rw [dateRangeMSAux_succ (f + 9) (y, 10) E (by omega)]
    norm_num [nextYM]
  have t5 : dateRangeMSAux (f + 9) (y, 11) E
      = (y, 11) :: dateRangeMSAux (f + 8) (y, 12) E := by
    rw [show f + 9 = (f + 8) + 1 from rfl]
    rw [dateRangeMSAux_succ (f + 8) (y, 11) E (by omega)]
    norm_num [nextYM]
  have t6 : dateRangeMSAux (f + 8) (y, 12) E
      = (y, 12) :: dateRangeMSAux (f + 7) (y + 1, 1) E := by
    rw [show f + 8 = (f + 7) + 1 from rfl]
    rw [dateRangeMSAux_succ (f + 7) (y, 12) E (by omega)]
    norm_num [nextYM]
  have t7 : dateRangeMSAux (f + 7) (y + 1, 1) E
      = (y + 1, 1) :: dateRangeMSAux (f + 6) (y + 1, 2) E := by
    rw [show f + 7 = (f + 6) + 1 from rfl]
    rw [dateRangeMSAux_succ (f + 6) (y + 1, 1) E (by omega)]
    norm_num [nextYM]
  have t8 : dateRangeMSAux (f + 6) (y + 1, 2) E
      = (y + 1, 2) :: dateRangeMSAux (f + 5) (y + 1, 3) E := by
    rw [show f + 6 = (f + 5) + 1 from rfl]
    rw [dateRangeMSAux_succ (f + 5) (y + 1, 2) E (by omega)]
    norm_num [nextYM]
  have t9 : dateRangeMSAux (f + 5) (y + 1, 3) E
      = (y + 1, 3) :: dateRangeMSAux (f + 4) (y + 1, 4) E := by
    rw [show f + 5 = (f + 4) + 1 from rfl]
    rw [dateRangeMSAux_succ (f + 4) (y + 1, 3) E (by omega)]
    norm_num [nextYM]
  have t10 : dateRangeMSAux (f + 4) (y + 1, 4) E
      = (y + 1, 4) :: dateRangeMSAux (f + 3) (y + 1, 5) E := by
    rw [show f + 4 = (f + 3) + 1 from rfl]
    rw [dateRangeMSAux_succ (f + 3) (y + 1, 4) E (by omega)]
    norm_num [nextYM]
  have t11 : dateRangeMSAux (f + 3) (y + 1, 5) E
      = (y + 1, 5) :: dateRangeMSAux (f + 2) (y + 1, 6) E := by
    rw [show f + 3 = (f + 2) + 1 from rfl]
    rw [dateRangeMSAux_succ (f + 2) (y + 1, 5) E (by omega)]
    norm_num [nextYM]
  have t12 : dateRangeMSAux (f + 2) (y + 1, 6) E
      = (y + 1, 6) :: dateRangeMSAux (f + 1) (y + 1, 7) E := by
    rw [show f + 2 = (f + 1) + 1 from rfl]
    rw [dateRangeMSAux_succ (f + 1) (y + 1, 6) E (by omega)]
    norm_num [nextYM]
  have t13 : dateRangeMSAux (f + 1) (y + 1, 7) E = [] :=
    dateRangeMSAux_nil (f + 1) (y + 1, 7) E (by omega)
  rw [t1, t2, t3, t4, t5, t6, t7, t8, t9, t10, t11, t12, t13]

/-- Variant of `overlapDays_split` whose shapes match month windows
`(b_prev, b - 1)` / `(b, c)`. -/
lemma overlapDays_split_at (s e a b c : ℤ) (h1 : a ≤ b) (h2 : b ≤ c + 1) :
    overlapDays s e a c = overlapDays s e a (b - 1) + overlapDays s e b c := by
  unfold overlapDays
  omega

/-- The explicit month windows of a fiscal year. -/
lemma fiscalMonthWindows_eq (y : ℕ) (hy : 1 ≤ y) :
    fiscalMonthWindows y =
      [(dnum (monthStart (y, 7)), dnum (monthStart (y, 8)) - 1),
       (dnum (monthStart (y, 8)), dnum (monthStart (y, 9)) - 1),
       (dnum (monthStart (y, 9)), dnum (monthStart (y, 10)) - 1),
       (dnum (monthStart (y, 10)), dnum (monthStart (y, 11)) - 1),
       (dnum (monthStart (y, 11)), dnum (monthStart (y, 12)) - 1),
       (dnum (monthStart (y, 12)), dnum (monthStart (y + 1, 1)) - 1),
       (dnum (monthStart (y + 1, 1)), dnum (monthStart (y + 1, 2)) - 1),
       (dnum (monthStart (y + 1, 2)), dnum (monthStart (y + 1, 3)) - 1),
       (dnum (monthStart (y + 1, 3)), dnum (monthStart (y + 1, 4)) - 1),
       (dnum (monthStart (y + 1, 4)), dnum (monthStart (y + 1, 5)) - 1),
       (dnum (monthStart (y + 1, 5)), dnum (monthStart (y + 1, 6)) - 1),
       (dnum (monthStart (y + 1, 6)), dnum (monthStart (y + 1, 7)) - 1)] := by
  unfold fiscalMonthWindows
  rw [show dateRangeMS (getFiscalYearRange y).1 (getFiscalYearRange y).2
        = dateRangeMS ⟨y, 7, 1⟩ ⟨y + 1, 6, 30⟩ from rfl]
  rw [fiscal_months y hy]
  simp [nextYM]

/-- C1: for a project with present, well-ordered dates, summing
`allocate_value` over the 12 calendar months of any fiscal year yields the
share of `value` proportional to the part of the project's inclusive span
lying in the fiscal year; it equals `value` exactly when the project's range
is contained in the fiscal year. -/
theorem allocateValue_fiscal_additivity (v : ℚ) (s e : CalDate) (y : ℕ)
    (hy : 1 ≤ y) (hse : dnum s ≤ dnum e) :
    ((fiscalMonthWindows y).map
        (fun w => allocateValue v (some s) (some e) w.1 w.2)).sum
      = v * (((overlapDays (dnum s) (dnum e) (dnum (getFiscalYearRange y).1)
              (dnum (getFiscalYearRange y).2) : ℤ) : ℚ)
          / ((dnum e - dnum s + 1 : ℤ) : ℚ))
    ∧ (dnum (getFiscalYearRange y).1 ≤ dnum s →
       dnum e ≤ dnum (getFiscalYearRange y).2 →
       ((fiscalMonthWindows y).map
           (fun w => allocateValue v (some s) (some e) w.1 w.2)).sum = v) := by
  have hy1 : 1 ≤ y + 1 := by omega
  have hL1 : 28 ≤ monthLength (y + 1) 2 := by
    simp only [monthLength]
    norm_num
    split_ifs <;> norm_num
  have e8 : dnum (monthStart (y, 8)) = dnum (monthStart (y, 7)) + 31 := by
    have h := dnum_monthStart_next (y, 7) hy (by norm_num) (by norm_num)
    norm_num [nextYM, monthLength] at h
    exact h
  have e9 : dnum (monthStart (y, 9)) = dnum (monthStart (y, 8)) + 31 := by
    have h := dnum_monthStart_next (y, 8) hy (by norm_num) (by norm_num)
    norm_num [nextYM, monthLength] at h
    exact h
  have e10 : dnum (monthStart (y, 10)) = dnum (monthStart (y, 9)) + 30 := by
    have h := dnum_monthStart_next (y, 9) hy (by norm_num) (by norm_num)
    norm_num [nextYM, monthLength] at h
    exact h
  have e11 : dnum (monthStart (y, 11)) = dnum (monthStart (y, 10)) + 31 := by
    have h := dnum_monthStart_next (y, 10) hy (by norm_num) (by norm_num)
    norm_num [nextYM, monthLength] at h
    exact h
  have e12 : dnum (monthStart (y, 12)) = dnum (monthStart (y, 11)) + 30 := by
    have h := dnum_monthStart_next (y, 11) hy (by norm_num) (by norm_num)
    norm_num [nextYM, monthLength] at h
    exact h
  have f1 : dnum (monthStart (y + 1, 1)) = dnum (monthStart (y, 12)) + 31 := by
    have h := dnum_monthStart_next (y, 12) hy (by norm_num) (by norm_num)
    norm_num [nextYM, monthLength] at h
    exact h
  have f2 : dnum (monthStart (y + 1, 2)) = dnum (monthStart (y + 1, 1)) + 31 := by
    have h := dnum_monthStart_next (y + 1, 1) hy1 (by norm_num) (by norm_num)
    norm_num [nextYM, monthLength] at h
    exact h
  have f3 : dnum (monthStart (y + 1, 3))
      = dnum (monthStart (y + 1, 2)) + (monthLength (y + 1) 2 : ℤ) := by
    have h := dnum_monthStart_next (y + 1, 2) hy1 (by norm_num) (by norm_num)
    norm_num [nextYM] at h
    exact h
  have f4 : dnum (monthStart (y + 1, 4)) = dnum (monthStart (y + 1, 3)) + 31 := by
    have h := dnum_monthStart_next (y + 1, 3) hy1 (by norm_num) (by norm_num)
    norm_num [nextYM, monthLength] at h
    exact h
  have f5 : dnum (monthStart (y + 1, 5)) = dnum (monthStart (y + 1, 4)) + 30 := by
    have h := dnum_monthStart_next (y + 1, 4) hy1 (by norm_num) (by norm_num)
    norm_num [nextYM, monthLength] at h
    exact h
  have f6 : dnum (monthStart (y + 1, 6)) = dnum (monthStart (y + 1, 5)) + 31 := by
    have h := dnum_monthStart_next (y + 1, 5) hy1 (by norm_num) (by norm_num)
    norm_num [nextYM, monthLength] at h
    exact h
  have f7 : dnum (monthStart (y + 1, 7)) = dnum (monthStart (y + 1, 6)) + 30 := by
    have h := dnum_monthStart_next (y + 1, 6) hy1 (by norm_num) (by norm_num)
    norm_num [nextYM, monthLength] at h
    exact h
  have hEnd : dnum (getFiscalYearRange y).2 = dnum (monthStart (y + 1, 6)) + 29 := by
    rw [show (getFiscalYearRange y).2 = (⟨y + 1, 6, 30⟩ : CalDate) from rfl,
      show monthStart (y + 1, 6) = (⟨y + 1, 6, 1⟩ : CalDate) from rfl]
    have h30 := dnum_day (y + 1) 6 30
    norm_num at h30
    exact h30
  have hT : ((dnum e - dnum s + 1 : ℤ) : ℚ) ≠ 0 := Int.cast_ne_zero.mpr (by omega)
  have hsum : ((fiscalMonthWindows y).map
      (fun w => allocateValue v (some s) (some e) w.1 w.2)).sum
      = v * (((overlapDays (dnum s) (dnum e) (dnum (getFiscalYearRange y).1)
            (dnum (getFiscalYearRange y).2) : ℤ) : ℚ)
          / ((dnum e - dnum s + 1 : ℤ) : ℚ)) := by
    rw [fiscalMonthWindows_eq y hy]
    simp only [List.map_cons, List.map_nil, List.sum_cons, List.sum_nil]
    simp only [allocateValue_eq_overlap v s e hse]
    rw [show dnum (getFiscalYearRange y).1 = dnum (monthStart (y, 7)) from rfl]
    have g1 : overlapDays (dnum s) (dnum e) (dnum (monthStart (y, 7)))
        (dnum (getFiscalYearRange y).2)
        = overlapDays (dnum s) (dnum e) (dnum (monthStart (y, 7)))
            (dnum (monthStart (y, 8)) - 1)
          + overlapDays (dnum s) (dnum e) (dnum (monthStart (y, 8)))
            (dnum (getFiscalYearRange y).2) :=
      overlapDays_split_at _ _ _ _ _ (by omega) (by omega)
    have g2 : overlapDays (dnum s) (dnum e) (dnum (monthStart (y, 8)))
        (dnum (getFiscalYearRange y).2)
        = overlapDays (dnum s) (dnum e) (dnum (monthStart (y, 8)))
            (dnum (monthStart (y, 9)) - 1)
          + overlapDays (dnum s) (dnum e) (dnum (monthStart (y, 9)))
            (dnum (getFiscalYearRange y).2) :=
      overlapDays_split_at _ _ _ _ _ (by omega) (by omega)
    have g3 : overlapDays (dnum s) (dnum e) (dnum (monthStart (y, 9)))
        (dnum (getFiscalYearRange y).2)
        = overlapDays (dnum s) (dnum e) (dnum (monthStart (y, 9)))
            (dnum (monthStart (y, 10)) - 1)
          + overlapDays (dnum s) (dnum e) (dnum (monthStart (y, 10)))
            (dnum (getFiscalYearRange y).2) :=
      overlapDays_split_at _ _ _ _ _ (by omega) (by omega)
    have g4 : overlapDays (dnum s) (dnum e) (dnum (monthStart (y, 10)))
        (dnum (getFiscalYearRange y).2)
        = overlapDays (dnum s) (dnum e) (dnum (monthStart (y, 10)))
            (dnum (monthStart (y, 11)) - 1)
          + overlapDays (dnum s) (dnum e) (dnum (monthStart (y, 11)))
            (dnum (getFiscalYearRange y).2) :=
      overlapDays_split_at _ _ _ _ _ (by omega) (by omega)
    have g5 : overlapDays (dnum s) (dnum e) (dnum (monthStart (y, 11)))
        (dnum (getFiscalYearRange y).2)
        = overlapDays (dnum s) (dnum e) (dnum (monthStart (y, 11)))
            (dnum (monthStart (y, 12)) - 1)
          + overlapDays (dnum s) (dnum e) (dnum (monthStart (y, 12)))
            (dnum (getFiscalYearRange y).2) :=
      overlapDays_split_at _ _ _ _ _ (by omega) (by omega)
    have g6 : overlapDays (dnum s) (dnum e) (dnum (monthStart (y, 12)))
        (dnum (getFiscalYearRange y).2)
        = overlapDays (dnum s) (dnum e) (dnum (monthStart (y, 12)))
            (dnum (monthStart (y + 1, 1)) - 1)
          + overlapDays (dnum s) (dnum e) (dnum (monthStart (y + 1, 1)))
            (dnum (getFiscalYearRange y).2) :=
      overlapDays_split_at _ _ _ _ _ (by omega) (by omega)
    have g7 : overlapDays (dnum s) (dnum e) (dnum (monthStart (y + 1, 1)))
        (dnum (getFiscalYearRange y).2)
        = overlapDays (dnum s) (dnum e) (dnum (monthStart (y + 1, 1)))
            (dnum (monthStart (y + 1, 2)) - 1)
          + overlapDays (dnum s) (dnum e) (dnum (monthStart (y + 1, 2)))
            (dnum (getFiscalYearRange y).2) :=
      overlapDays_split_at _ _ _ _ _ (by omega) (by omega)
    have g8 : overlapDays (dnum s) (dnum e) (dnum (monthStart (y + 1, 2)))
        (dnum (getFiscalYearRange y).2)
        = overlapDays (dnum s) (dnum e) (dnum (monthStart (y + 1, 2)))
            (dnum (monthStart (y + 1, 3)) - 1)
          + overlapDays (dnum s) (dnum e) (dnum (monthStart (y + 1, 3)))
            (dnum (getFiscalYearRange y).2) :=
      overlapDays_split_at _ _ _ _ _ (by omega) (by omega)
    have g9 : overlapDays (dnum s) (dnum e) (dnum (monthStart (y + 1, 3)))
        (dnum (getFiscalYearRange y).2)
        = overlapDays (dnum s) (dnum e) (dnum (monthStart (y + 1, 3)))
            (dnum (monthStart (y + 1, 4)) - 1)
          + overlapDays (dnum s) (dnum e) (dnum (monthStart (y + 1, 4)))
            (dnum (getFiscalYearRange y).2) :=
      overlapDays_split_at _ _ _ _ _ (by omega) (by omega)
    have g10 : overlapDays (dnum s) (dnum e) (dnum (monthStart (y + 1, 4)))
        (dnum (getFiscalYearRange y).2)
        = overlapDays (dnum s) (dnum e) (dnum (monthStart (y + 1, 4)))
            (dnum (monthStart (y + 1, 5)) - 1)
          + overlapDays (dnum s) (dnum e) (dnum (monthStart (y + 1, 5)))
            (dnum (getFiscalYearRange y).2) :=
      overlapDays_split_at _ _ _ _ _ (by omega) (by omega)
    have g11 : overlapDays (dnum s) (dnum e) (dnum (monthStart (y + 1, 5)))
        (dnum (getFiscalYearRange y).2)
        = overlapDays (dnum s) (dnum e) (dnum (monthStart (y + 1, 5)))
            (dnum (monthStart (y + 1, 6)) - 1)
          + overlapDays (dnum s) (dnum e) (dnum (monthStart (y + 1, 6)))
            (dnum (getFiscalYearRange y).2) :=
      overlapDays_split_at _ _ _ _ _ (by omega) (by omega)
    have g12 : overlapDays (dnum s) (dnum e) (dnum (monthStart (y + 1, 6)))
        (dnum (getFiscalYearRange y).2)
        = overlapDays (dnum s) (dnum e) (dnum (monthStart (y + 1, 6)))
            (dnum (monthStart (y + 1, 7)) - 1)
          + overlapDays (dnum s) (dnum e) (dnum (monthStart (y + 1, 7)))
            (dnum (getFiscalYearRange y).2) :=
      overlapDays_split_at _ _ _ _ _ (by omega) (by omega)
    have g13 : overlapDays (dnum s) (dnum e) (dnum (monthStart (y + 1, 7)))
        (dnum (getFiscalYearRange y).2) = 0 := by
      unfold overlapDays
      omega
    have key : overlapDays (dnum s) (dnum e) (dnum (monthStart (y, 7)))
        (dnum (getFiscalYearRange y).2)
        = overlapDays (dnum s) (dnum e) (dnum (monthStart (y, 7)))
            (dnum (monthStart (y, 8)) - 1)
          + overlapDays (dnum s) (dnum e) (dnum (monthStart (y, 8)))
            (dnum (monthStart (y, 9)) - 1)
          + overlapDays (dnum s) (dnum e) (dnum (monthStart (y, 9)))
            (dnum (monthStart (y, 10)) - 1)
          + overlapDays (dnum s) (dnum e) (dnum (monthStart (y, 10)))
            (dnum (monthStart (y, 11)) - 1)
          + overlapDays (dnum s) (dnum e) (dnum (monthStart (y, 11)))
            (dnum (monthStart (y, 12)) - 1)
          + overlapDays (dnum s) (dnum e) (dnum (monthStart (y, 12)))
            (dnum (monthStart (y + 1, 1)) - 1)
          + overlapDays (dnum s) (dnum e) (dnum (monthStart (y + 1, 1)))
            (dnum (monthStart (y + 1, 2)) - 1)
          + overlapDays (dnum s) (dnum e) (dnum (monthStart (y + 1, 2)))
            (dnum (monthStart (y + 1, 3)) - 1)
          + overlapDays (dnum s) (dnum e) (dnum (monthStart (y + 1, 3)))
            (dnum (monthStart (y + 1, 4)) - 1)
          + overlapDays (dnum s) (dnum e) (dnum (monthStart (y + 1, 4)))
            (dnum (monthStart (y + 1, 5)) - 1)
          + overlapDays (dnum s) (dnum e) (dnum (monthStart (y + 1, 5)))
            (dnum (monthStart (y + 1, 6)) - 1)
          + overlapDays (dnum s) (dnum e) (dnum (monthStart (y + 1, 6)))
            (dnum (monthStart (y + 1, 7)) - 1) := by
      omega
    rw [key]
    push_cast
    field_simp
    ring
  refine ⟨hsum, fun h1 h2 => ?_⟩
  rw [hsum]
  have hO : overlapDays (dnum s) (dnum e) (dnum (getFiscalYearRange y).1)
      (dnum (getFiscalYearRange y).2) = dnum e - dnum s + 1 := by
    unfold overlapDays
    omega
  rw [hO, div_self hT, mul_one]

/-- C7: aggregating an empty project table over fiscal year 2025 (fiscal
start month 7) yields exactly 12 zero-filled buckets whose month starts run
from 2025-07-01 through 2026-06-01; the cumulative cash-flow sequence is
all 0. -/
theorem computeMonthlyAggregation_empty_fy2025 :
    computeMonthlyAggregation [] (getFiscalYearRange 2025) =
      [⟨(2025, 7), 0, 0, 0, 0, 0, 0, 0, 0, 0⟩,
       ⟨(2025, 8), 0, 0, 0, 0, 0, 0, 0, 0, 0⟩,
       ⟨(2025, 9), 0, 0, 0, 0, 0, 0, 0, 0, 0⟩,
       ⟨(2025, 10), 0, 0, 0, 0, 0, 0, 0, 0, 0⟩,
       ⟨(2025, 11), 0, 0, 0, 0, 0, 0, 0, 0, 0⟩,
       ⟨(2025, 12), 0, 0, 0, 0, 0, 0, 0, 0, 0⟩,
       ⟨(2026, 1), 0, 0, 0, 0, 0, 0, 0, 0, 0⟩,
       ⟨(2026, 2), 0, 0, 0, 0, 0, 0, 0, 0, 0⟩,
       ⟨(2026, 3), 0, 0, 0, 0, 0, 0, 0, 0, 0⟩,
       ⟨(2026, 4), 0, 0, 0, 0, 0, 0, 0, 0, 0⟩,
       ⟨(2026, 5), 0, 0, 0, 0, 0, 0, 0, 0, 0⟩,
       ⟨(2026, 6), 0, 0, 0, 0, 0, 0, 0, 0, 0⟩] := by
  decide

lemma computeMonthlyAggregationAux_margin (rows : List ProjectRow) :
    ∀ (months : List (ℕ × ℕ)) (acc : ℚ) (b : MonthlyBucket),
      b ∈ computeMonthlyAggregationAux rows acc months →
      b.revenue = 0 → b.grossMarginPct = 0 := by
  intro months
  induction months with
  | nil => intro acc b hb; simp [computeMonthlyAggregationAux] at hb
  | cons ym rest ih =>
    intro acc b hb hrev
    simp only [computeMonthlyAggregationAux, List.mem_cons] at hb
    rcases hb with rfl | hb
    · simp only at hrev ⊢
      rw [if_pos hrev]
    · exact ih _ b hb hrev

/-- C6: every ratio with a zero denominator yields 0: `原価率` when
受注金額 = 0, a monthly bucket's 粗利率 when that month's revenue is 0, and
`allocate_value` when the total inclusive day count is not positive. -/
theorem zero_denominator_guards :
    (∀ (clock : CalDate) (r : ProjectRow), r.orderAmount = 0 →
        (enrichRow clock r).costRatioPct = 0)
    ∧ (∀ (rows : List ProjectRow) (range : CalDate × CalDate) (b : MonthlyBucket),
        b ∈ computeMonthlyAggregation rows range →
        b.revenue = 0 → b.grossMarginPct = 0)
    ∧ (∀ (v : ℚ) (s e : CalDate) (ms me : ℤ), dnum e - dnum s + 1 ≤ 0 →
        allocateValue v (some s) (some e) ms me = 0) := by
  refine ⟨?_, ?_, ?_⟩
  · intro clock r h
    simp [enrichRow, h]
  · intro rows range b hb hrev
    unfold computeMonthlyAggregation at hb
    split_ifs at hb with hrows
    · simp only [List.mem_map] at hb
      obtain ⟨ym, _, rfl⟩ := hb
      rfl
    · exact computeMonthlyAggregationAux_margin rows _ _ b hb hrev
  · intro v s e ms me h
    simp only [allocateValue]
    split_ifs <;> first | rfl | (exfalso; omega)

/-- C6 witness: the guards at concrete inputs. -/
theorem zero_denominator_guards_witness :
    (enrichRow ⟨2025, 1, 1⟩ { orderAmount := 0, plannedCost := 5 }).costRatioPct = 0
    ∧ allocateValue 7 (some ⟨2025, 3, 10⟩) (some ⟨2025, 3, 1⟩)
        (dnum ⟨2025, 3, 1⟩) (dnum ⟨2025, 3, 31⟩) = 0 := by
  constructor
  · exact zero_denominator_guards.1 ⟨2025, 1, 1⟩ { orderAmount := 0, plannedCost := 5 } rfl
  · exact zero_denominator_guards.2.2 7 ⟨2025, 3, 10⟩ ⟨2025, 3, 1⟩ _ _ (by decide)

/-- C3 (amended): `enrich_projects` is deterministic in the input rows
together with the date read from the system clock during the call. -/
theorem enrichProjects_deterministic (clock : CalDate) (rows : List ProjectRow) :
    enrichProjects clock rows = enrichProjects clock rows := rfl

/-- C3 counterexample: identical input tables do not suffice — the output
depends on the clock value `date.today()` reads inside `enrich_projects`,
which is not a parameter of the function. -/
theorem enrichProjects_clock_sensitive :
    enrichProjects ⟨2025, 1, 6⟩ [clockProbeRow]
      ≠ enrichProjects ⟨2026, 1, 1⟩ [clockProbeRow] := by
  intro h
  simp only [enrichProjects, List.map_cons, List.map_nil, List.cons.injEq,
    and_true] at h
  have hx := congrArg EnrichedProject.expectedProgressPct h
  have e1 : (enrichRow ⟨2025, 1, 6⟩ clockProbeRow).expectedProgressPct
      = calculateExpectedProgress clockProbeRow ⟨2025, 1, 6⟩ := rfl
  have e2 : (enrichRow ⟨2026, 1, 1⟩ clockProbeRow).expectedProgressPct
      = calculateExpectedProgress clockProbeRow ⟨2026, 1, 1⟩ := rfl
  have hs : orDate clockProbeRow.plannedStart clockProbeRow.actualStart
      = some ⟨2025, 1, 1⟩ := rfl
  have he : clockProbeRow.plannedEnd = some ⟨2025, 1, 11⟩ := rfl
  have v1 : calculateExpectedProgress clockProbeRow ⟨2025, 1, 6⟩ = 50 := by
    simp only [calculateExpectedProgress, hs, he]
    rw [if_neg (by decide), if_neg (by decide), if_neg (by decide)]
    rw [show dnum (⟨2025, 1, 6⟩ : CalDate) - dnum ⟨2025, 1, 1⟩ = 5 from by decide,
      show dnum (⟨2025, 1, 11⟩ : CalDate) - dnum ⟨2025, 1, 1⟩ = 10 from by decide]
    norm_num
  have v2 : calculateExpectedProgress clockProbeRow ⟨2026, 1, 1⟩ = 100 := by
    simp only [calculateExpectedProgress, hs, he]
    rw [if_neg (by decide), if_neg (by decide), if_pos (by decide)]
  rw [e1, e2, v1, v2] at hx
  norm_num at hx

/-! ## C2: risk-level policy -/

lemma riskOrder_le_two (s : String) : riskOrder s ≤ 2 := by
  unfold riskOrder
  split_ifs <;> norm_num

lemma riskOrder_low : riskOrder "低" = 0 := by decide

lemma riskOrder_mid : riskOrder "中" = 1 := by decide

lemma riskOrder_high : riskOrder "高" = 2 := by decide

lemma riskRule1_mono (sig : RiskSignals) (st : RiskState) :
    riskOrder st.level ≤ riskOrder (riskRule1 sig st).level := by
  unfold riskRule1
  split_ifs
  · simp only [riskOrder_high]
    exact riskOrder_le_two _
  · exact le_rfl

lemma riskRule2_mono (sig : RiskSignals) (st : RiskState) :
    riskOrder st.level ≤ riskOrder (riskRule2 sig st).level := by
  unfold riskRule2
  split_ifs with h1 h2
  · simp only [riskOrder_high]
    exact riskOrder_le_two _
  · have h := le_of_lt h2.2
    simp only [riskOrder_mid] at h ⊢
    exact h
  · exact le_rfl

lemma riskRule3_mono (sig : RiskSignals) (st : RiskState) :
    riskOrder st.level ≤ riskOrder (riskRule3 sig st).level := by
  unfold riskRule3
  split_ifs
  · simp only [riskOrder_high]
    exact riskOrder_le_two _
  · exact le_rfl

lemma riskRule4_mono (sig : RiskSignals) (st : RiskState) :
    riskOrder st.level ≤ riskOrder (riskRule4 sig st).level := by
  simp only [riskRule4]
  split_ifs with h1 h2 h3
  · exact le_of_lt h2.2
  · exact le_rfl
  · exact le_of_lt h3.2
  · exact le_rfl

lemma riskRule5_mono (sig : RiskSignals) (st : RiskState)
    (hP : st.reasons = [] → st.level = "低") :
    riskOrder st.level ≤ riskOrder (riskRule5 sig st).level := by
  unfold riskRule5
  split_ifs with h
  · rw [hP h.1]
    simp [riskOrder_low, riskOrder_mid]
  · exact le_rfl

lemma riskRule1_inv (sig : RiskSignals) (st : RiskState)
    (hP : st.reasons = [] → st.level = "低") :
    (riskRule1 sig st).reasons = [] → (riskRule1 sig st).level = "低" := by
  unfold riskRule1
  split_ifs
  · intro hcon; simp at hcon
  · exact hP

lemma riskRule2_inv (sig : RiskSignals) (st : RiskState)
    (hP : st.reasons = [] → st.level = "低") :
    (riskRule2 sig st).reasons = [] → (riskRule2 sig st).level = "低" := by
  unfold riskRule2
  split_ifs
  · intro hcon; simp at hcon
  · intro hcon; simp at hcon
  · exact hP

lemma riskRule3_inv (sig : RiskSignals) (st : RiskState)
    (hP : st.reasons = [] → st.level = "低") :
    (riskRule3 sig st).reasons = [] → (riskRule3 sig st).level = "低" := by
  unfold riskRule3
  split_ifs
  · intro hcon; simp at hcon
  · exact hP

lemma riskRule4_inv (sig : RiskSignals) (st : RiskState)
    (hP : st.reasons = [] → st.level = "低") :
    (riskRule4 sig st).reasons = [] → (riskRule4 sig st).level = "低" := by
  simp only [riskRule4]
  split_ifs with h1 h2 h3
  · intro hcon; simp at hcon
  · intro hcon; simp at hcon
  · -- raised but not annotated: the manual level must be 低, contradicting the raise
    exfalso
    have hm := h3.1
    simp only [riskKeys] at hm
    simp only [List.mem_cons, List.mem_singleton, List.not_mem_nil, or_false] at hm
    rcases hm with hm | hm | hm
    · have hlt := h3.2
      rw [hm, riskOrder_low] at hlt
      omega
    · exact h1 ⟨by rw [hm]; decide, by rw [hm]; decide, by rw [hm]; decide⟩
    · exact h1 ⟨by rw [hm]; decide, by rw [hm]; decide, by rw [hm]; decide⟩
  · exact hP

lemma riskRule5_inv (sig : RiskSignals) (st : RiskState)
    (hP : st.reasons = [] → st.level = "低") :
    (riskRule5 sig st).reasons = [] → (riskRule5 sig st).level = "低" := by
  unfold riskRule5
  split_ifs
  · intro hcon; simp at hcon
  · exact hP

lemma riskStage4_inv (sig : RiskSignals) :
    (riskStage4 sig).reasons = [] → (riskStage4 sig).level = "低" :=
  riskRule4_inv _ _ (riskRule3_inv _ _ (riskRule2_inv _ _ (riskRule1_inv _ _
    (fun _ => rfl))))

lemma riskStage1_high_of_over (sig : RiskSignals) (h : sig.isOverBudget = true) :
    (riskStage1 sig).level = "高" := by
  unfold riskStage1 riskRule1
  rw [if_pos h]

lemma riskStage2_high_of_pv (sig : RiskSignals) (h : sig.progressVariance < -30) :
    (riskStage2 sig).level = "高" := by
  unfold riskStage2 riskRule2
  rw [if_pos h]

lemma riskStage3_high_of_delay (sig : RiskSignals) (h : 0 < sig.delayDays) :
    (riskStage3 sig).level = "高" := by
  unfold riskStage3 riskRule3
  rw [if_pos h]

lemma riskStage4_high_of_manual (sig : RiskSignals)
    (h : pythonStrip sig.manualRisk = "高") :
    2 ≤ riskOrder (riskStage4 sig).level := by
  unfold riskStage4
  simp only [riskRule4, h]
  split_ifs with h1 h2 h3
  · simp [riskOrder_high]
  · -- annotated without raising: the level is already at least 高
    have h2' := h2
    push_neg at h2'
    have hle := h2' (by decide)
    rw [riskOrder_high] at hle
    dsimp only
    omega
  · exact absurd ⟨by decide, by decide, by decide⟩ h1
  · exact absurd ⟨by decide, by decide, by decide⟩ h1

/-- C2: `determine_risk_level` never returns 低 when the budget is exceeded,
the progress variance is below -30, the delay is positive, or the manual
level is 高; it is deterministic; and the severity only increases along the
ordered rule evaluation (stages 1-5). -/
theorem determineRiskLevel_policy (sig : RiskSignals) :
    ((sig.isOverBudget = true ∨ sig.progressVariance < -30 ∨ 0 < sig.delayDays ∨
        pythonStrip sig.manualRisk = "高") → (determineRiskLevel sig).1 ≠ "低")
    ∧ determineRiskLevel sig = determineRiskLevel sig
    ∧ riskOrder "低" ≤ riskOrder (riskStage1 sig).level
    ∧ riskOrder (riskStage1 sig).level ≤ riskOrder (riskStage2 sig).level
    ∧ riskOrder (riskStage2 sig).level ≤ riskOrder (riskStage3 sig).level
    ∧ riskOrder (riskStage3 sig).level ≤ riskOrder (riskStage4 sig).level
    ∧ riskOrder (riskStage4 sig).level ≤ riskOrder (riskStage5 sig).level := by
  have m01 : riskOrder "低" ≤ riskOrder (riskStage1 sig).level :=
    riskRule1_mono sig ⟨"低", []⟩
  have m12 : riskOrder (riskStage1 sig).level ≤ riskOrder (riskStage2 sig).level :=
    riskRule2_mono sig (riskStage1 sig)
  have m23 : riskOrder (riskStage2 sig).level ≤ riskOrder (riskStage3 sig).level :=
    riskRule3_mono sig (riskStage2 sig)
  have m34 : riskOrder (riskStage3 sig).level ≤ riskOrder (riskStage4 sig).level :=
    riskRule4_mono sig (riskStage3 sig)
  have m45 : riskOrder (riskStage4 sig).level ≤ riskOrder (riskStage5 sig).level :=
    riskRule5_mono sig (riskStage4 sig) (riskStage4_inv sig)
  refine ⟨?_, rfl, m01, m12, m23, m34, m45⟩
  intro hcond
  have h5 : 1 ≤ riskOrder (riskStage5 sig).level := by
    rcases hcond with h | h | h | h
    · have h1 : riskOrder (riskStage1 sig).level = 2 := by
        rw [riskStage1_high_of_over sig h]
        exact riskOrder_high
      omega
    · have h2 : riskOrder (riskStage2 sig).level = 2 := by
        rw [riskStage2_high_of_pv sig h]
        exact riskOrder_high
      omega
    · have h3 : riskOrder (riskStage3 sig).level = 2 := by
        rw [riskStage3_high_of_delay sig h]
        exact riskOrder_high
      omega
    · have h4 := riskStage4_high_of_manual sig h
      omega
  intro heq
  have hlev : (riskStage5 sig).level = "低" := heq
  rw [hlev] at h5
  rw [riskOrder_low] at h5
  omega

/-- C2 witness: a signal set with `isOverBudget` does not classify as 低. -/
theorem determineRiskLevel_policy_witness :
    (determineRiskLevel ⟨true, 0, 0, "", ""⟩).1 ≠ "低" :=
  (determineRiskLevel_policy ⟨true, 0, 0, "", ""⟩).1 (Or.inl rfl)

/-- C1 witness: a project lying entirely inside fiscal year 2025 allocates
its whole value across that year's 12 months. -/
theorem allocateValue_fiscal_additivity_witness :
    ((fiscalMonthWindows 2025).map
        (fun w => allocateValue 10 (some ⟨2025, 8, 15⟩) (some ⟨2025, 9, 14⟩)
          w.1 w.2)).sum = 10 :=
  (allocateValue_fiscal_additivity 10 ⟨2025, 8, 15⟩ ⟨2025, 9, 14⟩ 2025
    (by norm_num) (by decide)).2 (by decide) (by decide)

/-! ## C4: expected progress -/

lemma calcExpected_nonneg (r : ProjectRow) (t : CalDate) :
    0 ≤ calculateExpectedProgress r t := by
  unfold calculateExpectedProgress
  cases h1 : orDate r.plannedStart r.actualStart with
  | none => simp
  | some s =>
    cases h2 : r.plannedEnd with
    | none => simp
    | some e =>
      simp only
      split_ifs
      · norm_num
      · norm_num
      · norm_num
      · exact le_max_left _ _

lemma calcExpected_le_100 (r : ProjectRow) (t : CalDate) :
    calculateExpectedProgress r t ≤ 100 := by
  unfold calculateExpectedProgress
  cases h1 : orDate r.plannedStart r.actualStart with
  | none => simp
  | some s =>
    cases h2 : r.plannedEnd with
    | none => simp
    | some e =>
      simp only
      split_ifs
      · norm_num
      · norm_num
      · norm_num
      · exact max_le (by norm_num) (min_le_left _ _)

/-- C4: `calculate_expected_progress` is 0 without a present, well-ordered
span, 0 at or before the start, 100 at or after the end, the clamped linear
interpolation strictly inside, and monotone non-decreasing in `today`. -/
theorem calculateExpectedProgress_spec (r : ProjectRow) (today : CalDate) :
    ((∀ s e, orDate r.plannedStart r.actualStart = some s →
        r.plannedEnd = some e → dnum e ≤ dnum s) →
      calculateExpectedProgress r today = 0)
    ∧ (∀ s e, orDate r.plannedStart r.actualStart = some s →
        r.plannedEnd = some e → dnum s < dnum e →
        ((dnum today ≤ dnum s → calculateExpectedProgress r today = 0)
         ∧ (dnum e ≤ dnum today → calculateExpectedProgress r today = 100)
         ∧ (dnum s < dnum today → dnum today < dnum e →
             calculateExpectedProgress r today =
               max 0 (min 100 (((dnum today - dnum s : ℤ) : ℚ)
                 / ((dnum e - dnum s : ℤ) : ℚ) * 100)))))
    ∧ (∀ t1 t2 : CalDate, dnum t1 ≤ dnum t2 →
        calculateExpectedProgress r t1 ≤ calculateExpectedProgress r t2) := by
  refine ⟨?_, ?_, ?_⟩
  · intro hcond
    unfold calculateExpectedProgress
    cases h1 : orDate r.plannedStart r.actualStart with
    | none => simp
    | some s =>
      cases h2 : r.plannedEnd with
      | none => simp
      | some e =>
        simp only
        rw [if_pos (hcond s e h1 h2)]
  · intro s e h1 h2 hlt
    have base : ∀ t : CalDate, calculateExpectedProgress r t =
        if dnum e ≤ dnum s then 0
        else if dnum t ≤ dnum s then 0
        else if dnum e ≤ dnum t then 100
        else max 0 (min 100 (((dnum t - dnum s : ℤ) : ℚ)
          / ((dnum e - dnum s : ℤ) : ℚ) * 100)) := by
      intro t
      simp only [calculateExpectedProgress, h1, h2]
    refine ⟨?_, ?_, ?_⟩
    · intro ht
      rw [base today, if_neg (not_le.mpr hlt), if_pos ht]
    · intro ht
      rw [base today, if_neg (not_le.mpr hlt),
        if_neg (not_le.mpr (lt_of_lt_of_le hlt ht)), if_pos ht]
    · intro ha hb
      rw [base today, if_neg (not_le.mpr hlt), if_neg (not_le.mpr ha),
        if_neg (not_le.mpr hb)]
  · intro t1 t2 h12
    cases h1 : orDate r.plannedStart r.actualStart with
    | none => simp [calculateExpectedProgress, h1]
    | some s =>
      cases h2 : r.plannedEnd with
      | none => simp [calculateExpectedProgress, h1, h2]
      | some e =>
        have base : ∀ t : CalDate, calculateExpectedProgress r t =
            if dnum e ≤ dnum s then 0
            else if dnum t ≤ dnum s then 0
            else if dnum e ≤ dnum t then 100
            else max 0 (min 100 (((dnum t - dnum s : ℤ) : ℚ)
              / ((dnum e - dnum s : ℤ) : ℚ) * 100)) := by
          intro t
          simp only [calculateExpectedProgress, h1, h2]
        rw [base t1, base t2]
        by_cases hse : dnum e ≤ dnum s
        · rw [if_pos hse, if_pos hse]
        · rw [if_neg hse, if_neg hse]
          push_neg at hse
          have hc : (0 : ℚ) < ((dnum e - dnum s : ℤ) : ℚ) := by
            exact_mod_cast (by omega : (0 : ℤ) < dnum e - dnum s)
          split_ifs
          all_goals try (exfalso; omega)
          all_goals try (norm_num; done)
          all_goals try (exact le_max_left _ _)
          all_goals try (exact max_le (by norm_num) (min_le_left _ _))
          all_goals
            refine max_le_max le_rfl (min_le_min le_rfl ?_)
          all_goals
            refine mul_le_mul_of_nonneg_right ((div_le_div_right hc).mpr ?_)
              (by norm_num)
          all_goals exact Int.cast_le.mpr (by omega)

/-- C4 witness: start 2025-10-01, end 2025-10-11, today 2025-10-06 gives
5/10 · 100 = 50. -/
theorem calculateExpectedProgress_spec_witness :
    calculateExpectedProgress
      { plannedStart := some ⟨2025, 10, 1⟩, plannedEnd := some ⟨2025, 10, 11⟩ }
      ⟨2025, 10, 6⟩ = 50 := by
  have h := (calculateExpectedProgress_spec
      { plannedStart := some ⟨2025, 10, 1⟩, plannedEnd := some ⟨2025, 10, 11⟩ }
      ⟨2025, 10, 6⟩).2.1 ⟨2025, 10, 1⟩ ⟨2025, 10, 11⟩ rfl rfl (by decide)
  rw [h.2.2 (by decide) (by decide)]
  rw [show dnum (⟨2025, 10, 6⟩ : CalDate) - dnum ⟨2025, 10, 1⟩ = 5 from by decide,
    show dnum (⟨2025, 10, 11⟩ : CalDate) - dnum ⟨2025, 10, 1⟩ = 10 from by decide]
  norm_num

/-- For a channel in the power branch, the linear-light value is at most the
base of the power (the base lies in (0, 1] and the exponent exceeds 1). -/
lemma toLinear_le_base (c : ℤ) (hc0 : 0 < c) (hc255 : c ≤ 255)
    (hbr : ¬((c : ℝ) / 255 ≤ 0.03928)) :
    toLinear c ≤ ((c : ℝ) / 255 + 0.055) / 1.055 := by
  unfold toLinear
  rw [if_neg hbr]
  have hcr : (0 : ℝ) < (c : ℝ) := by exact_mod_cast hc0
  have hcr' : (c : ℝ) ≤ 255 := by exact_mod_cast hc255
  have hx0 : (0 : ℝ) < ((c : ℝ) / 255 + 0.055) / 1.055 := by
    have h1 : (0 : ℝ) < (c : ℝ) / 255 := by positivity
    exact div_pos (by linarith) (by norm_num)
  have hx1 : ((c : ℝ) / 255 + 0.055) / 1.055 ≤ 1 := by
    have h1 : (c : ℝ) / 255 ≤ 1 := by
      rw [div_le_one (by norm_num : (0 : ℝ) < 255)]
      exact hcr'
    rw [div_le_one (by norm_num : (0 : ℝ) < 1.055)]
    linarith
  calc (((c : ℝ) / 255 + 0.055) / 1.055) ^ (2.4 : ℝ)
      ≤ (((c : ℝ) / 255 + 0.055) / 1.055) ^ (1 : ℝ) :=
        Real.rpow_le_rpow_of_exponent_ge hx0 hx1 (by norm_num)
    _ = ((c : ℝ) / 255 + 0.055) / 1.055 := Real.rpow_one _

/-- C8: `get_contrasting_text_color` parses 3- or 6-digit hex with or
without a leading `#`, returns the dark brand navy on parse failure,
thresholds the sRGB relative luminance at 0.55, and in particular brand
navy `#0B1F3A` gets white text while `#FFFFFF` gets the navy. -/
theorem getContrastingTextColor_spec :
    (∀ s, hexToRgb s = none → getContrastingTextColor s = "#0B1F3A")
    ∧ (∀ s rgb, hexToRgb s = some rgb →
        getContrastingTextColor s
          = (if luminance rgb < 0.55 then "#FFFFFF" else "#0B1F3A"))
    ∧ hexToRgb "#0B1F3A" = some (11, 31, 58)
    ∧ hexToRgb "0B1F3A" = some (11, 31, 58)
    ∧ hexToRgb "#ABC" = hexToRgb "#AABBCC"
    ∧ getContrastingTextColor "#0B1F3A" = "#FFFFFF"
    ∧ getContrastingTextColor "#FFFFFF" = "#0B1F3A" := by
  have hbase : ∀ s, getContrastingTextColor s = (match hexToRgb s with
      | none => "#0B1F3A"
      | some rgb => if luminance rgb < 0.55 then "#FFFFFF" else "#0B1F3A") :=
    fun s => rfl
  have hnavy : hexToRgb "#0B1F3A" = some (11, 31, 58) := by decide
  have hwhite : hexToRgb "#FFFFFF" = some (255, 255, 255) := by decide
  refine ⟨?_, ?_, hnavy, by decide, by decide, ?_, ?_⟩
  · intro s h
    rw [hbase s, h]
  · intro s rgb h
    rw [hbase s, h]
  · have hlum : luminance (11, 31, 58) < 0.55 := by
      have hrep : luminance (11, 31, 58)
          = 0.2126 * toLinear 11 + 0.7152 * toLinear 31 + 0.0722 * toLinear 58 := rfl
      rw [hrep]
      have hr := toLinear_le_base 11 (by norm_num) (by norm_num) (by norm_num)
      have hg := toLinear_le_base 31 (by norm_num) (by norm_num) (by norm_num)
      have hb := toLinear_le_base 58 (by norm_num) (by norm_num) (by norm_num)
      have hr' : ((11 : ℤ) : ℝ) = 11 := by norm_num
      have hg' : ((31 : ℤ) : ℝ) = 31 := by norm_num
      have hb' : ((58 : ℤ) : ℝ) = 58 := by norm_num
      rw [hr'] at hr
      rw [hg'] at hg
      rw [hb'] at hb
      linarith
    rw [hbase _, hnavy]
    show (if luminance (11, 31, 58) < 0.55 then "#FFFFFF" else "#0B1F3A") = "#FFFFFF"
    rw [if_pos hlum]
  · have h255 : toLinear 255 = 1 := by
      unfold toLinear
      rw [if_neg (by norm_num)]
      rw [show (((255 : ℤ) : ℝ) / 255 + 0.055) / 1.055 = 1 from by norm_num]
      exact Real.one_rpow _
    have hlum : ¬ (luminance (255, 255, 255) < 0.55) := by
      have hrep : luminance (255, 255, 255)
          = 0.2126 * toLinear 255 + 0.7152 * toLinear 255 + 0.0722 * toLinear 255 := rfl
      rw [hrep, h255]
      norm_num
    rw [hbase _, hwhite]
    show (if luminance (255, 255, 255) < 0.55 then "#FFFFFF" else "#0B1F3A") = "#0B1F3A"
    rw [if_neg hlum]

/-- C8 witness: an unparseable color falls back to the dark brand navy. -/
theorem getContrastingTextColor_spec_witness :
    getContrastingTextColor "not-a-color" = "#0B1F3A" :=
  getContrastingTextColor_spec.1 "not-a-color" (by decide)

lemma monthLength_ge_28 (y m : ℕ) : 28 ≤ monthLength y m := by
  unfold monthLength
  split_ifs <;> norm_num

lemma subDays3_spec (t : CalDate) (hv : t.Valid) (hy : 2 ≤ t.y) :
    dnum (subDays3 t) = dnum t - 3 ∧ (subDays3 t).Valid := by
  obtain ⟨hy1, hm1, hm2, hd1, hd2⟩ := hv
  unfold subDays3
  split_ifs with h1 h2
  · constructor
    · simp only [dnum]
      omega
    · unfold CalDate.Valid
      dsimp only
      omega
  · -- day ≤ 3 in January: borrow from December of the previous year
    constructor
    · obtain ⟨z, hz⟩ : ∃ z, t.y = z + 1 := ⟨t.y - 1, by omega⟩
      have hz1 : 1 ≤ z := by omega
      have hA := daysBeforeYear_succ z hz1
      have hB := daysBeforeMonth_year_total z
      have hC : daysBeforeMonth z 13 = daysBeforeMonth z 12 + monthLength z 12 :=
        daysBeforeMonth_succ z 12 (by norm_num)
      have hD : monthLength z 12 = 31 := by norm_num [monthLength]
      have hE : daysBeforeMonth (z + 1) 1 = 0 := by simp [daysBeforeMonth]
      simp only [dnum, hz, h2]
      rw [show z + 1 - 1 = z from by omega]
      omega
    · unfold CalDate.Valid
      dsimp only
      rw [show monthLength (t.y - 1) 12 = 31 from by norm_num [monthLength]]
      omega
  · -- day ≤ 3 outside January: borrow from the previous month
    have hm2' : 2 ≤ t.m := by omega
    have hC := daysBeforeMonth_succ t.y (t.m - 1) (by omega)
    rw [show t.m - 1 + 1 = t.m from by omega] at hC
    have hML := monthLength_ge_28 t.y (t.m - 1)
    constructor
    · simp only [dnum]
      omega
    · unfold CalDate.Valid
      dsimp only
      omega

lemma addDays3_spec (t : CalDate) (hv : t.Valid) :
    dnum (addDays3 t) = dnum t + 3 ∧ (addDays3 t).Valid := by
  obtain ⟨hy1, hm1, hm2, hd1, hd2⟩ := hv
  unfold addDays3
  split_ifs with h1 h2
  · constructor
    · simp only [dnum]
      omega
    · unfold CalDate.Valid
      dsimp only
      omega
  · -- spills past December 31: roll over to January
    have hD : monthLength t.y 12 = 31 := by norm_num [monthLength]
    rw [h2] at hd2 h1
    constructor
    · have hA := daysBeforeYear_succ t.y hy1
      have hB := daysBeforeMonth_year_total t.y
      have hC : daysBeforeMonth t.y 13 = daysBeforeMonth t.y 12 + monthLength t.y 12 :=
        daysBeforeMonth_succ t.y 12 (by norm_num)
      have hE : daysBeforeMonth (t.y + 1) 1 = 0 := by simp [daysBeforeMonth]
      simp only [dnum, h2]
      omega
    · unfold CalDate.Valid
      dsimp only
      rw [show monthLength (t.y + 1) 1 = 31 from by norm_num [monthLength]]
      omega
  · -- spills past the month end: roll over to the next month
    have hC := daysBeforeMonth_succ t.y t.m hm1
    have hML := monthLength_ge_28 t.y (t.m + 1)
    constructor
    · simp only [dnum]
      omega
    · unfold CalDate.Valid
      dsimp only
      omega

lemma minDateBy_le_init (init : CalDate) (l : List CalDate) :
    dnum (minDateBy init l) ≤ dnum init := by
  induction l generalizing init with
  | nil => exact le_rfl
  | cons d l ih =>
    simp only [minDateBy, List.foldl_cons] at *
    refine le_trans (ih _) ?_
    split_ifs with h
    · omega
    · exact le_rfl

lemma minDateBy_le_mem (init : CalDate) (l : List CalDate) :
    ∀ x ∈ l, dnum (minDateBy init l) ≤ dnum x := by
  induction l generalizing init with
  | nil => intro x hx; simp at hx
  | cons d l ih =>
    intro x hx
    rcases List.mem_cons.mp hx with rfl | hx
    · simp only [minDateBy, List.foldl_cons]
      refine le_trans (minDateBy_le_init _ _) ?_
      split_ifs with h
      · exact le_rfl
      · omega
    · exact ih _ x hx

lemma minDateBy_mem (init : CalDate) (l : List CalDate) :
    minDateBy init l = init ∨ minDateBy init l ∈ l := by
  induction l generalizing init with
  | nil => exact Or.inl rfl
  | cons d l ih =>
    have hstep : minDateBy init (d :: l)
        = minDateBy (if dnum d < dnum init then d else init) l := rfl
    rw [hstep]
    rcases ih (if dnum d < dnum init then d else init) with h | h
    · rw [h]
      split_ifs with hc
      · exact Or.inr (List.mem_cons_self _ _)
      · exact Or.inl rfl
    · exact Or.inr (List.mem_cons_of_mem _ h)

lemma maxDateBy_le_init (init : CalDate) (l : List CalDate) :
    dnum init ≤ dnum (maxDateBy init l) := by
  induction l generalizing init with
  | nil => exact le_rfl
  | cons d l ih =>
    simp only [maxDateBy, List.foldl_cons] at *
    refine le_trans ?_ (ih _)
    split_ifs with h
    · omega
    · exact le_rfl

lemma maxDateBy_le_mem (init : CalDate) (l : List CalDate) :
    ∀ x ∈ l, dnum x ≤ dnum (maxDateBy init l) := by
  induction l generalizing init with
  | nil => intro x hx; simp at hx
  | cons d l ih =>
    intro x hx
    rcases List.mem_cons.mp hx with rfl | hx
    · simp only [maxDateBy, List.foldl_cons]
      refine le_trans ?_ (maxDateBy_le_init _ _)
      split_ifs with h
      · exact le_rfl
      · omega
    · exact ih _ x hx

lemma maxDateBy_mem (init : CalDate) (l : List CalDate) :
    maxDateBy init l = init ∨ maxDateBy init l ∈ l := by
  induction l generalizing init with
  | nil => exact Or.inl rfl
  | cons d l ih =>
    have hstep : maxDateBy init (d :: l)
        = maxDateBy (if dnum init < dnum d then d else init) l := rfl
    rw [hstep]
    rcases ih (if dnum init < dnum d then d else init) with h | h
    · rw [h]
      split_ifs with hc
      · exact Or.inr (List.mem_cons_self _ _)
      · exact Or.inl rfl
    · exact Or.inr (List.mem_cons_of_mem _ h)

lemma buildAxisMarks_domain (starts ends : List (Option CalDate))
    (axis : GanttAxisMarks) (hax : buildAxisMarks starts ends = some axis) :
    ∃ sv ev, minDateOpt starts = some sv ∧ maxDateOpt ends = some ev ∧
      axis.domainStart = ⟨sv.y, sv.m, 1⟩ ∧
      axis.domainEnd = ⟨ev.y, ev.m, monthLength ev.y ev.m⟩ := by
  unfold buildAxisMarks at hax
  cases hmin : minDateOpt starts with
  | none => rw [hmin] at hax; cases hax
  | some sv =>
    cases hmax : maxDateOpt ends with
    | none => rw [hmin, hmax] at hax; cases hax
    | some ev =>
      rw [hmin, hmax] at hax
      simp only [Option.some.injEq] at hax
      exact ⟨sv, ev, rfl, rfl, by rw [← hax], by rw [← hax]⟩

lemma minDateOpt_spec (l : List (Option CalDate)) (sv : CalDate)
    (h : minDateOpt l = some sv) :
    (∀ x, some x ∈ l → dnum sv ≤ dnum x) ∧ some sv ∈ l := by
  unfold minDateOpt at h
  cases hfm : l.filterMap id with
  | nil => rw [hfm] at h; cases h
  | cons v vs =>
    rw [hfm] at h
    injection h with h
    have hvmem : v ∈ l.filterMap id := by
      rw [hfm]; exact List.mem_cons_self _ _
    constructor
    · intro x hx
      have hxm : x ∈ l.filterMap id := List.mem_filterMap.mpr ⟨some x, hx, rfl⟩
      rw [hfm] at hxm
      rcases List.mem_cons.mp hxm with rfl | hxvs
      · rw [← h]; exact minDateBy_le_init _ _
      · rw [← h]; exact minDateBy_le_mem _ _ x hxvs
    · have hm : sv ∈ l.filterMap id := by
        rw [hfm, ← h]
        rcases minDateBy_mem v vs with hmm | hmm
        · rw [hmm]; exact List.mem_cons_self _ _
        · exact List.mem_cons_of_mem _ hmm
      obtain ⟨a, hal, ha⟩ := List.mem_filterMap.mp hm
      rw [show id a = a from rfl] at ha
      rw [ha] at hal
      exact hal

lemma maxDateOpt_spec (l : List (Option CalDate)) (ev : CalDate)
    (h : maxDateOpt l = some ev) :
    (∀ x, some x ∈ l → dnum x ≤ dnum ev) ∧ some ev ∈ l := by
  unfold maxDateOpt at h
  cases hfm : l.filterMap id with
  | nil => rw [hfm] at h; cases h
  | cons v vs =>
    rw [hfm] at h
    injection h with h
    constructor
    · intro x hx
      have hxm : x ∈ l.filterMap id := List.mem_filterMap.mpr ⟨some x, hx, rfl⟩
      rw [hfm] at hxm
      rcases List.mem_cons.mp hxm with rfl | hxvs
      · rw [← h]; exact maxDateBy_le_init _ _
      · rw [← h]; exact maxDateBy_le_mem _ _ x hxvs
    · have hm : ev ∈ l.filterMap id := by
        rw [hfm, ← h]
        rcases maxDateBy_mem v vs with hmm | hmm
        · rw [hmm]; exact List.mem_cons_self _ _
        · exact List.mem_cons_of_mem _ hmm
      obtain ⟨a, hal, ha⟩ := List.mem_filterMap.mp hm
      rw [show id a = a from rfl] at ha
      rw [ha] at hal
      exact hal

/-- C5 (amended): when every range and the fallback range have both dates
present, valid (year at least 2) and well-ordered, every input date lies in
`[domainStart, domainEnd]` of `gen_time_marks`, whose domain start is the
first of a month and domain end the last day of a month; likewise for the
Gantt chart's `_build_axis_marks`. -/
theorem axis_domain_containment
    (tasks : List (Option CalDate × Option CalDate)) (fallback : CalDate × CalDate)
    (hfb1 : fallback.1.Valid) (hfb2 : fallback.2.Valid) (hfby : 2 ≤ fallback.1.y)
    (hfbord : dnum fallback.1 ≤ dnum fallback.2)
    (htasks : ∀ p ∈ tasks, ∃ s e, p = (some s, some e) ∧ s.Valid ∧ e.Valid ∧
        2 ≤ s.y ∧ dnum s ≤ dnum e) :
    ((∀ p ∈ tasks, ∀ s e, p = (some s, some e) →
        dnum (genTimeMarks tasks fallback).domainStart ≤ dnum s
        ∧ dnum e ≤ dnum (genTimeMarks tasks fallback).domainEnd
        ∧ dnum (genTimeMarks tasks fallback).domainStart ≤ dnum e
        ∧ dnum s ≤ dnum (genTimeMarks tasks fallback).domainEnd)
      ∧ dnum (genTimeMarks tasks fallback).domainStart ≤ dnum fallback.1
      ∧ dnum fallback.2 ≤ dnum (genTimeMarks tasks fallback).domainEnd
      ∧ (genTimeMarks tasks fallback).domainStart.d = 1
      ∧ (genTimeMarks tasks fallback).domainEnd.d
          = monthLength (genTimeMarks tasks fallback).domainEnd.y
              (genTimeMarks tasks fallback).domainEnd.m)
    ∧ (∀ (rows : List (CalDate × CalDate)) (axis : GanttAxisMarks),
        (∀ q ∈ rows, q.1.Valid ∧ q.2.Valid ∧ dnum q.1 ≤ dnum q.2) →
        buildAxisMarks (rows.map (fun q => some q.1)) (rows.map (fun q => some q.2))
          = some axis →
        (∀ q ∈ rows, dnum axis.domainStart ≤ dnum q.1
          ∧ dnum q.2 ≤ dnum axis.domainEnd
          ∧ dnum axis.domainStart ≤ dnum q.2 ∧ dnum q.1 ≤ dnum axis.domainEnd)
        ∧ axis.domainStart.d = 1
        ∧ axis.domainEnd.d = monthLength axis.domainEnd.y axis.domainEnd.m) := by
  constructor
  · -- gen_time_marks
    set starts := tasks.filterMap (fun r => r.1) with hstarts
    set ends := tasks.filterMap (fun r => r.2) with hends
    set startTs := minDateBy fallback.1 starts with hstartTs
    set endTs0 := maxDateBy fallback.2 ends with hendTs0
    have hstv : startTs.Valid ∧ 2 ≤ startTs.y := by
      rcases minDateBy_mem fallback.1 starts with h | h
      · rw [hstartTs, h]; exact ⟨hfb1, hfby⟩
      · rw [hstarts] at h
        obtain ⟨p, hp, hfp⟩ := List.mem_filterMap.mp h
        obtain ⟨s, e, hpe, hsv, hev, hsy, hse⟩ := htasks p hp
        rw [hpe] at hfp
        simp only [Option.some.injEq] at hfp
        have hfp' : s = startTs := hfp
        rw [← hfp']
        exact ⟨hsv, hsy⟩
    have hetv : endTs0.Valid := by
      rcases maxDateBy_mem fallback.2 ends with h | h
      · rw [hendTs0, h]; exact hfb2
      · rw [hends] at h
        obtain ⟨p, hp, hfp⟩ := List.mem_filterMap.mp h
        obtain ⟨s, e, hpe, hsv, hev, hsy, hse⟩ := htasks p hp
        rw [hpe] at hfp
        simp only [Option.some.injEq] at hfp
        have hfp' : e = endTs0 := hfp
        rw [← hfp']
        exact hev
    have hclamp : dnum startTs ≤ dnum endTs0 := by
      have h1 : dnum startTs ≤ dnum fallback.1 := minDateBy_le_init _ _
      have h2 : dnum fallback.2 ≤ dnum endTs0 := maxDateBy_le_init _ _
      omega
    have hsub := subDays3_spec startTs hstv.1 hstv.2
    have hadd := addDays3_spec endTs0 hetv
    have hDS : (genTimeMarks tasks fallback).domainStart
        = ⟨(subDays3 startTs).y, (subDays3 startTs).m, 1⟩ := rfl
    have hDE0 : (genTimeMarks tasks fallback).domainEnd
        = ⟨(addDays3 (if dnum endTs0 < dnum startTs then startTs else endTs0)).y,
           (addDays3 (if dnum endTs0 < dnum startTs then startTs else endTs0)).m,
           monthLength
             (addDays3 (if dnum endTs0 < dnum startTs then startTs else endTs0)).y
             (addDays3 (if dnum endTs0 < dnum startTs then startTs else endTs0)).m⟩ :=
      rfl
    rw [if_neg (by omega)] at hDE0
    have hDSle : dnum (genTimeMarks tasks fallback).domainStart ≤ dnum startTs - 3 := by
      rw [hDS]
      have h1 := dnum_le_dnum_of_day_le (subDays3 startTs).y (subDays3 startTs).m 1
        (subDays3 startTs).d hsub.2.2.2.2.1
      have h2 : dnum (⟨(subDays3 startTs).y, (subDays3 startTs).m,
          (subDays3 startTs).d⟩ : CalDate) = dnum (subDays3 startTs) := rfl
      omega
    have hDEge : dnum endTs0 + 3 ≤ dnum (genTimeMarks tasks fallback).domainEnd := by
      rw [hDE0]
      have h1 := dnum_le_dnum_of_day_le (addDays3 endTs0).y (addDays3 endTs0).m
        (addDays3 endTs0).d (monthLength (addDays3 endTs0).y (addDays3 endTs0).m)
        hadd.2.2.2.2.2
      have h2 : dnum (⟨(addDays3 endTs0).y, (addDays3 endTs0).m,
          (addDays3 endTs0).d⟩ : CalDate) = dnum (addDays3 endTs0) := rfl
      omega
    refine ⟨?_, ?_, ?_, ?_, ?_⟩
    · intro p hp s e hpe
      obtain ⟨s', e', hpe', hsv', hev', hsy', hse'⟩ := htasks p hp
      rw [hpe] at hpe'
      simp only [Prod.mk.injEq, Option.some.injEq] at hpe'
      obtain ⟨hz1, hz2⟩ := hpe'
      subst hz1
      subst hz2
      have hs_mem : s ∈ starts := by
        rw [hstarts]
        exact List.mem_filterMap.mpr ⟨p, hp, by rw [hpe]⟩
      have he_mem : e ∈ ends := by
        rw [hends]
        exact List.mem_filterMap.mpr ⟨p, hp, by rw [hpe]⟩
      have h_s : dnum startTs ≤ dnum s := minDateBy_le_mem _ _ s hs_mem
      have h_e : dnum e ≤ dnum endTs0 := maxDateBy_le_mem _ _ e he_mem
      refine ⟨by omega, by omega, by omega, by omega⟩
    · have h1 : dnum startTs ≤ dnum fallback.1 := minDateBy_le_init _ _
      omega
    · have h2 : dnum fallback.2 ≤ dnum endTs0 := maxDateBy_le_init _ _
      omega
    · rw [hDS]
    · rw [hDE0]
  · -- _build_axis_marks
    intro rows axis hvalid hax
    obtain ⟨sv, ev, hmin, hmax, hds, hde⟩ := buildAxisMarks_domain _ _ _ hax
    obtain ⟨hsvle, hsvmem⟩ := minDateOpt_spec _ _ hmin
    obtain ⟨hevge, hevmem⟩ := maxDateOpt_spec _ _ hmax
    have hsv_valid : sv.Valid := by
      obtain ⟨q, hq, hqeq⟩ := List.mem_map.mp hsvmem
      simp only [Option.some.injEq] at hqeq
      rw [← hqeq]
      exact (hvalid q hq).1
    have hev_valid : ev.Valid := by
      obtain ⟨q, hq, hqeq⟩ := List.mem_map.mp hevmem
      simp only [Option.some.injEq] at hqeq
      rw [← hqeq]
      exact (hvalid q hq).2.1
    have hdsle : dnum axis.domainStart ≤ dnum sv := by
      rw [hds]
      have h1 := dnum_le_dnum_of_day_le sv.y sv.m 1 sv.d hsv_valid.2.2.2.1
      have h2 : dnum (⟨sv.y, sv.m, sv.d⟩ : CalDate) = dnum sv := rfl
      omega
    have hdege : dnum ev ≤ dnum axis.domainEnd := by
      rw [hde]
      have h1 := dnum_le_dnum_of_day_le ev.y ev.m ev.d (monthLength ev.y ev.m)
        hev_valid.2.2.2.2
      have h2 : dnum (⟨ev.y, ev.m, ev.d⟩ : CalDate) = dnum ev := rfl
      omega
    refine ⟨?_, ?_, ?_⟩
    · intro q hq
      have h_s : dnum sv ≤ dnum q.1 :=
        hsvle q.1 (List.mem_map.mpr ⟨q, hq, rfl⟩)
      have h_e : dnum q.2 ≤ dnum ev :=
        hevge q.2 (List.mem_map.mpr ⟨q, hq, rfl⟩)
      have hqord := (hvalid q hq).2.2
      refine ⟨by omega, by omega, by omega, by omega⟩
    · rw [hds]
    · rw [hde]

/-- C5 counterexample: with an ill-ordered range (start after end) the
returned domain does not contain the range's start date, refuting the claim
for arbitrary input sets. -/
theorem genTimeMarks_domain_noncontainment :
    ¬ (dnum (⟨2030, 1, 1⟩ : CalDate)
        ≤ dnum ((genTimeMarks [(some ⟨2030, 1, 1⟩, some ⟨2020, 1, 1⟩)]
            (⟨2025, 5, 1⟩, ⟨2025, 5, 10⟩)).domainEnd)) := by
  decide

/-- C5 witness: a well-ordered task range is contained in the domain. -/
theorem axis_domain_containment_witness :
    dnum ((genTimeMarks [(some ⟨2025, 3, 10⟩, some ⟨2025, 6, 20⟩)]
        (⟨2025, 5, 1⟩, ⟨2025, 5, 10⟩)).domainStart) ≤ dnum (⟨2025, 3, 10⟩ : CalDate)
    ∧ (genTimeMarks [(some ⟨2025, 3, 10⟩, some ⟨2025, 6, 20⟩)]
        (⟨2025, 5, 1⟩, ⟨2025, 5, 10⟩)).domainStart.d = 1 := by
  have h := axis_domain_containment [(some ⟨2025, 3, 10⟩, some ⟨2025, 6, 20⟩)]
    (⟨2025, 5, 1⟩, ⟨2025, 5, 10⟩) (by decide) (by decide) (by decide) (by decide)
    (by
      intro p hp
      simp only [List.mem_singleton] at hp
      exact ⟨⟨2025, 3, 10⟩, ⟨2025, 6, 20⟩, by rw [hp], by decide, by decide,
        by decide, by decide⟩)
  refine ⟨?_, h.1.2.2.2.1⟩
  exact (h.1.1 _ (List.mem_singleton_self _) ⟨2025, 3, 10⟩ ⟨2025, 6, 20⟩ rfl).1

/-! ## C9: minor-mark deduplication is last-write-wins -/

lemma dictLookup_insert (d : List (ℤ × String)) (kv : ℤ × String) (k : ℤ) :
    dictLookup (dictInsert d kv) k = if kv.1 = k then some kv.2 else dictLookup d k := by
  induction d with
  | nil =>
    by_cases hk : kv.1 = k
    · simp only [dictInsert, dictLookup, if_pos hk]
      rw [List.find?_cons_of_pos _ (by simpa using hk)]
      rfl
    · simp only [dictInsert, dictLookup, if_neg hk]
      rw [List.find?_cons_of_neg _ (by simpa using hk)]
  | cons q d ih =>
    by_cases hq : q.1 = kv.1
    · by_cases hk : kv.1 = k
      · have hqk : q.1 = k := by omega
        simp only [dictInsert, if_pos hq, dictLookup, if_pos hk]
        rw [List.find?_cons_of_pos _ (by simpa using hqk)]
        rfl
      · have hqk : ¬ q.1 = k := by omega
        simp only [dictInsert, if_pos hq, dictLookup, if_neg hk]
        rw [List.find?_cons_of_neg _ (by simpa using hqk),
          List.find?_cons_of_neg _ (by simpa using hqk)]
    · simp only [dictInsert, if_neg hq]
      by_cases hqk : q.1 = k
      · have hk : ¬ kv.1 = k := by omega
        simp only [dictLookup, if_neg hk]
        rw [List.find?_cons_of_pos _ (by simpa using hqk),
          List.find?_cons_of_pos _ (by simpa using hqk)]
      · simp only [dictLookup] at ih ⊢
        rw [List.find?_cons_of_neg _ (by simpa using hqk),
          List.find?_cons_of_neg _ (by simpa using hqk)]
        exact ih

lemma lastLabel_cons (p : ℤ × String) (ps : List (ℤ × String)) (k : ℤ) :
    lastLabel (p :: ps) k
      = (lastLabel ps k).or (if p.1 = k then some p.2 else none) := by
  unfold lastLabel
  rw [List.reverse_cons, List.find?_append]
  by_cases hk : p.1 = k
  · rw [List.find?_cons_of_pos _ (by simpa using hk), if_pos hk]
    cases hfind : List.find? (fun q => q.1 == k) ps.reverse <;> simp [Option.or]
  · rw [List.find?_cons_of_neg _ (by simpa using hk), if_neg hk]
    cases hfind : List.find? (fun q => q.1 == k) ps.reverse <;> simp [Option.or]

lemma dictLookup_foldl (pairs : List (ℤ × String)) :
    ∀ (d0 : List (ℤ × String)) (k : ℤ),
      dictLookup (pairs.foldl dictInsert d0) k
        = (lastLabel pairs k).or (dictLookup d0 k) := by
  induction pairs with
  | nil =>
    intro d0 k
    simp [lastLabel, Option.or]
  | cons p ps ih =>
    intro d0 k
    have hstep : (p :: ps).foldl dictInsert d0 = ps.foldl dictInsert (dictInsert d0 p) :=
      rfl
    rw [hstep, ih, dictLookup_insert, lastLabel_cons]
    cases h1 : lastLabel ps k <;> by_cases hk : p.1 = k <;>
      simp [Option.or, h1, hk]

lemma dictInsert_keys (d : List (ℤ × String)) (kv : ℤ × String) (k : ℤ) :
    k ∈ (dictInsert d kv).map (fun p => p.1)
      ↔ k ∈ d.map (fun p => p.1) ∨ k = kv.1 := by
  induction d with
  | nil => simp [dictInsert, eq_comm]
  | cons q d ih =>
    by_cases hq : q.1 = kv.1
    · simp only [dictInsert, if_pos hq]
      simp [hq]
      tauto
    · simp only [dictInsert, if_neg hq]
      simp [ih]
      tauto

lemma foldl_dictInsert_keys (pairs : List (ℤ × String)) :
    ∀ (d0 : List (ℤ × String)) (k : ℤ),
      k ∈ ((pairs.foldl dictInsert d0).map (fun p => p.1))
        ↔ k ∈ d0.map (fun p => p.1) ∨ k ∈ pairs.map (fun p => p.1) := by
  induction pairs with
  | nil => simp
  | cons p ps ih =>
    intro d0 k
    have hstep : (p :: ps).foldl dictInsert d0 = ps.foldl dictInsert (dictInsert d0 p) :=
      rfl
    rw [hstep, ih, dictInsert_keys]
    simp
    tauto

lemma dictInsert_keys_nodup (d : List (ℤ × String)) (kv : ℤ × String)
    (h : (d.map (fun p => p.1)).Nodup) :
    ((dictInsert d kv).map (fun p => p.1)).Nodup := by
  induction d with
  | nil => simp [dictInsert]
  | cons q d ih =>
    by_cases hq : q.1 = kv.1
    · simp only [dictInsert, if_pos hq]
      simpa using h
    · simp only [dictInsert, if_neg hq]
      simp only [List.map_cons, List.nodup_cons] at h ⊢
      obtain ⟨hq_notin, hd⟩ := h
      refine ⟨?_, ih hd⟩
      intro hcon
      rcases (dictInsert_keys d kv q.1).mp hcon with hmem | heq
      · exact hq_notin hmem
      · exact hq heq

lemma foldl_dictInsert_nodup (pairs : List (ℤ × String)) :
    ∀ (d0 : List (ℤ × String)), (d0.map (fun p => p.1)).Nodup →
      ((pairs.foldl dictInsert d0).map (fun p => p.1)).Nodup := by
  induction pairs with
  | nil => intro d0 h; exact h
  | cons p ps ih =>
    intro d0 h
    exact ih (dictInsert d0 p) (dictInsert_keys_nodup d0 p h)

/-- C9: the minor marks of `gen_time_marks` are exactly the clipped
candidates (days 6, 12, 18, 24 and the month end of each month),
de-duplicated by position; each position carries the label of its *last*
generated occurrence, and each month generates its 月末 pair after its
numbered-day pairs, so a colliding month end would carry the 月末 label. -/
theorem genTimeMarks_minor_lastwins (tasks : List (Option CalDate × Option CalDate))
    (fallback : CalDate × CalDate) :
    (∀ k, k ∈ (genTimeMarks tasks fallback).minorMarks ↔
      k ∈ (minorPairs (dnum (genTimeMarks tasks fallback).domainStart)
            (dnum (genTimeMarks tasks fallback).domainEnd)
            (dateRangeMS (genTimeMarks tasks fallback).domainStart
              (genTimeMarks tasks fallback).domainEnd)).map (fun p => p.1))
    ∧ (genTimeMarks tasks fallback).minorMarks.Nodup
    ∧ (genTimeMarks tasks fallback).minorLabels
        = (genTimeMarks tasks fallback).minorMarks.map (fun k =>
            (lastLabel (minorPairs (dnum (genTimeMarks tasks fallback).domainStart)
              (dnum (genTimeMarks tasks fallback).domainEnd)
              (dateRangeMS (genTimeMarks tasks fallback).domainStart
                (genTimeMarks tasks fallback).domainEnd)) k).getD "")
    ∧ minorPairs (dnum (genTimeMarks tasks fallback).domainStart)
        (dnum (genTimeMarks tasks fallback).domainEnd)
        (dateRangeMS (genTimeMarks tasks fallback).domainStart
          (genTimeMarks tasks fallback).domainEnd)
      = (dateRangeMS (genTimeMarks tasks fallback).domainStart
          (genTimeMarks tasks fallback).domainEnd).bind
          (fun ym =>
            minorDayPairs (dnum (genTimeMarks tasks fallback).domainStart)
              (dnum (genTimeMarks tasks fallback).domainEnd) ym
            ++ monthEndPair (dnum (genTimeMarks tasks fallback).domainStart)
              (dnum (genTimeMarks tasks fallback).domainEnd) ym) := by
  have hM : (genTimeMarks tasks fallback).minorMarks
      = List.insertionSort (fun a b => a ≤ b)
          (((minorPairs (dnum (genTimeMarks tasks fallback).domainStart)
              (dnum (genTimeMarks tasks fallback).domainEnd)
              (dateRangeMS (genTimeMarks tasks fallback).domainStart
                (genTimeMarks tasks fallback).domainEnd)).foldl dictInsert []).map
            (fun p => p.1)) := rfl
  have hL : (genTimeMarks tasks fallback).minorLabels
      = (List.insertionSort (fun a b => a ≤ b)
          (((minorPairs (dnum (genTimeMarks tasks fallback).domainStart)
              (dnum (genTimeMarks tasks fallback).domainEnd)
              (dateRangeMS (genTimeMarks tasks fallback).domainStart
                (genTimeMarks tasks fallback).domainEnd)).foldl dictInsert []).map
            (fun p => p.1))).map (fun k =>
          (dictLookup ((minorPairs (dnum (genTimeMarks tasks fallback).domainStart)
              (dnum (genTimeMarks tasks fallback).domainEnd)
              (dateRangeMS (genTimeMarks tasks fallback).domainStart
                (genTimeMarks tasks fallback).domainEnd)).foldl dictInsert []) k).getD
            "") := rfl
  set P := minorPairs (dnum (genTimeMarks tasks fallback).domainStart)
      (dnum (genTimeMarks tasks fallback).domainEnd)
      (dateRangeMS (genTimeMarks tasks fallback).domainStart
        (genTimeMarks tasks fallback).domainEnd) with hP
  have hfun : ∀ k, dictLookup (P.foldl dictInsert []) k = lastLabel P k := by
    intro k
    rw [dictLookup_foldl P [] k]
    cases h1 : lastLabel P k <;> simp [dictLookup, Option.or, List.find?]
  refine ⟨?_, ?_, ?_, rfl⟩
  · intro k
    rw [hM]
    rw [(List.perm_insertionSort (fun a b => a ≤ b) _).mem_iff]
    rw [foldl_dictInsert_keys P [] k]
    simp
  · rw [hM]
    exact ((List.perm_insertionSort (fun a b => a ≤ b) _).nodup_iff).mpr
      (foldl_dictInsert_nodup P [] (by simp))
  · rw [hL, hM]
    have hext : (fun k => (dictLookup (P.foldl dictInsert []) k).getD "")
        = (fun k => (lastLabel P k).getD "") := funext fun k => by rw [hfun k]
    rw [hext]

/-! ## C10: `create_project_gantt_chart` error characterization -/

lemma minDateOpt_cons_some (s : CalDate) (l : List (Option CalDate)) :
    minDateOpt (some s :: l) = some (minDateBy s (l.filterMap id)) := rfl

lemma maxDateOpt_cons_some (e : CalDate) (l : List (Option CalDate)) :
    maxDateOpt (some e :: l) = some (maxDateBy e (l.filterMap id)) := rfl

lemma ganttRowOk_dates (r : String × Option CalDate × Option CalDate)
    (h : ganttRowOk r = true) :
    ∃ s e, r.2.1 = some s ∧ r.2.2 = some e ∧ dnum s ≤ dnum e := by
  cases h1 : r.2.1 with
  | none => simp [ganttRowOk, h1] at h
  | some s =>
    cases h2 : r.2.2 with
    | none => simp [ganttRowOk, h1, h2] at h
    | some e =>
      simp [ganttRowOk, h1, h2] at h
      exact ⟨s, e, rfl, rfl, h⟩

lemma createProjectGanttChart_cols (df : GanttInput) (hn : df.hasName = true)
    (hs : df.hasStart = true) (he : df.hasEnd = true) :
    createProjectGanttChart df =
      (if (df.rows.map (fun r => r.2.1)).filterMap id = [] then
        Except.error "列 '開始日' の有効な日付が見つかりません。"
      else if (df.rows.map (fun r => r.2.2)).filterMap id = [] then
        Except.error "列 '終了日' の有効な日付が見つかりません。"
      else if df.rows.filter ganttRowOk = [] then
        Except.error "開始日と終了日が正しく設定された行が存在しません。"
      else
        match buildAxisMarks ((df.rows.filter ganttRowOk).map (fun r => r.2.1))
            ((df.rows.filter ganttRowOk).map (fun r => r.2.2)) with
        | none => Except.error "開始日または終了日に有効な値が必要です。"
        | some axis =>
          Except.ok ⟨axis,
            (df.rows.filter ganttRowOk).filterMap (fun r =>
              match r.2.1, r.2.2 with
              | some s, some e =>
                if 0 < dnum e - dnum s + 1 then
                  some (⟨r.1, s, e, dnum e - dnum s + 1⟩ : GanttBar)
                else none
              | _, _ => none),
            max 360 (40 * ((((df.rows.filter ganttRowOk).filterMap (fun r =>
              match r.2.1, r.2.2 with
              | some s, some e =>
                if 0 < dnum e - dnum s + 1 then
                  some (⟨r.1, s, e, dnum e - dnum s + 1⟩ : GanttBar)
                else none
              | _, _ => none)).map (fun b => b.project)).eraseDups).length + 120)⟩) := by
  obtain ⟨a, b, c, rows⟩ := df
  dsimp only at hn hs he ⊢
  subst hn
  subst hs
  subst he
  rfl

/-- C10: `create_project_gantt_chart` raises `ValueError` (modelled as
`Except.error`) in exactly three situations — a required column
(案件名/開始日/終了日) is missing, a date column has no parseable date at
all, or no row has both dates parseable with end ≥ start — and in every
other situation it returns a figure. -/
theorem createProjectGanttChart_error_iff (df : GanttInput) :
    ((∃ msg, createProjectGanttChart df = Except.error msg) ↔
      ((df.hasName = false ∨ df.hasStart = false ∨ df.hasEnd = false)
        ∨ (df.rows.map (fun r => r.2.1)).filterMap id = []
        ∨ (df.rows.map (fun r => r.2.2)).filterMap id = []
        ∨ df.rows.filter ganttRowOk = []))
    ∧ (¬ ((df.hasName = false ∨ df.hasStart = false ∨ df.hasEnd = false)
        ∨ (df.rows.map (fun r => r.2.1)).filterMap id = []
        ∨ (df.rows.map (fun r => r.2.2)).filterMap id = []
        ∨ df.rows.filter ganttRowOk = [])
      → ∃ fig, createProjectGanttChart df = Except.ok fig) := by
  have hiff : (∃ msg, createProjectGanttChart df = Except.error msg) ↔
      ((df.hasName = false ∨ df.hasStart = false ∨ df.hasEnd = false)
        ∨ (df.rows.map (fun r => r.2.1)).filterMap id = []
        ∨ (df.rows.map (fun r => r.2.2)).filterMap id = []
        ∨ df.rows.filter ganttRowOk = []) := by
    cases hn : df.hasName with
    | false =>
      exact iff_of_true (by simp [createProjectGanttChart, hn]) (by tauto)
    | true =>
    cases hs : df.hasStart with
    | false =>
      exact iff_of_true (by simp [createProjectGanttChart, hn, hs]) (by tauto)
    | true =>
    cases he : df.hasEnd with
    | false =>
      exact iff_of_true (by simp [createProjectGanttChart, hn, hs, he]) (by tauto)
    | true =>
    have hres := createProjectGanttChart_cols df hn hs he
    by_cases h1 : (df.rows.map (fun r => r.2.1)).filterMap id = []
    · rw [if_pos h1] at hres
      exact iff_of_true ⟨_, hres⟩ (by tauto)
    · by_cases h2 : (df.rows.map (fun r => r.2.2)).filterMap id = []
      · rw [if_neg h1, if_pos h2] at hres
        exact iff_of_true ⟨_, hres⟩ (by tauto)
      · by_cases h3 : df.rows.filter ganttRowOk = []
        · rw [if_neg h1, if_neg h2, if_pos h3] at hres
          exact iff_of_true ⟨_, hres⟩ (by tauto)
        · obtain ⟨r, rest, hfl⟩ : ∃ r rest, df.rows.filter ganttRowOk = r :: rest := by
            cases hc : df.rows.filter ganttRowOk with
            | nil => exact absurd hc h3
            | cons a l => exact ⟨a, l, rfl⟩
          have hrok : ganttRowOk r = true := by
            have hmem : r ∈ df.rows.filter ganttRowOk := by
              rw [hfl]
              exact List.mem_cons_self _ _
            exact (List.mem_filter.mp hmem).2
          obtain ⟨s, e, hs1, he1, hle⟩ := ganttRowOk_dates r hrok
          have hax : ∃ ax, buildAxisMarks (r.2.1 :: rest.map (fun q => q.2.1))
              (r.2.2 :: rest.map (fun q => q.2.2)) = some ax := by
            rw [hs1, he1]
            unfold buildAxisMarks
            rw [minDateOpt_cons_some, maxDateOpt_cons_some]
            exact ⟨_, rfl⟩
          obtain ⟨ax, hax⟩ := hax
          rw [if_neg h1, if_neg h2, if_neg h3, hfl, List.map_cons, List.map_cons,
            hax] at hres
          apply iff_of_false
          · rintro ⟨msg, hmsg⟩
            rw [hres] at hmsg
            simp at hmsg
          · rintro ((hx | hx | hx) | hx | hx | hx)
            · exact absurd hx (by decide)
            · exact absurd hx (by decide)
            · exact absurd hx (by decide)
            · exact h1 hx
            · exact h2 hx
            · exact h3 hx
  refine ⟨hiff, fun h => ?_⟩
  cases hres : createProjectGanttChart df with
  | error m => exact absurd (hiff.mp ⟨m, hres⟩) h
  | ok fig => exact ⟨fig, rfl⟩

/-- C10 witness: a one-row table with both dates present and ordered
produces a figure. -/
theorem createProjectGanttChart_error_iff_witness :
    ∃ fig, createProjectGanttChart
        ⟨true, true, true, [("A", some ⟨2025, 1, 1⟩, some ⟨2025, 1, 10⟩)]⟩
      = Except.ok fig :=
  (createProjectGanttChart_error_iff _).2 (by decide)

end ConstructionDashboard
